import Mathlib

/-!
Shallow embedding of `src/occt-wrapper/src/occt_wrapper.cpp` (the handle-based
ABI facade over the OCCT geometry kernel).

Modelling conventions:
* The OCCT kernel (STEP/IGES readers, boolean algorithms, mesher, STEP writer,
  bounding-box computation) is an external black box; each wrapper function
  takes the outcome of its kernel calls as an explicit oracle parameter
  (an inductive enumerating the distinct control paths the C++ code
  distinguishes: done / not done / null shape / thrown exception, each with
  the data the code extracts on that path).
* `TopoDS_Shape` values are abstract: a type parameter `S`.  `double`
  parameters that are only passed through to the kernel (tolerance, radius,
  deflection) are abstract: a type parameter `R`.
* The global state (`shape_registry : std::map` plus the
  `next_handle : std::atomic` counter) is threaded explicitly as a
  `WrapperState`.  `std::map` is modelled as an association list with
  distinct keys; `operator[]` insert, `find` and `erase` are modelled by
  `regInsert`, `regFindIt` and `regErase`.
* C out-parameters are modelled as `Option` write records in the result:
  `none` means the pointee was left untouched, `some v` means the pointee
  was written with `v`.  A nullable C pointer argument is a `Bool` flag
  (`true` = non-null).  A possibly failing `malloc` is a `Bool` oracle.
* The error channel (`char* out_error, int err_len` + `snprintf`) is
  modelled by `write_error`, returning the `Option String` written into the
  caller buffer.  `snprintf` truncation is byte-level; every diagnostic in
  the code is ASCII, so character-level truncation of the model coincides.
-/

section Model

variable {S R : Type}

/-- The global mutable state of the wrapper: `shape_registry` (a `std::map`
from handle to shape, modelled as an association list with pairwise distinct
keys) and the `next_handle` atomic counter. -/
structure WrapperState (S : Type) where
  registry : List (Nat × S)
  nextHandle : Nat
deriving DecidableEq

/-- `shape_registry.find(h)`: first value stored under key `h`, if any. -/
def regFindIt (reg : List (Nat × S)) (h : Nat) : Option S :=
  match reg with
  | [] => none
  | (k, v) :: rest => if k = h then some v else regFindIt rest h

/-- `shape_registry[h] = s` (`std::map::operator[]` followed by assignment):
overwrites the entry at key `h` if present, otherwise appends a new entry. -/
def regInsert (reg : List (Nat × S)) (h : Nat) (s : S) : List (Nat × S) :=
  match reg with
  | [] => [(h, s)]
  | (k, v) :: rest => if k = h then (h, s) :: rest else (k, v) :: regInsert rest h s

/-- `shape_registry.erase(it)` for the iterator found at key `h`: removes the
first entry with key `h` (the only one, given distinct keys). -/
def regErase (reg : List (Nat × S)) (h : Nat) : List (Nat × S) :=
  match reg with
  | [] => []
  | (k, v) :: rest => if k = h then rest else (k, v) :: regErase rest h

/-- `write_error` (occt_wrapper.cpp lines 41-45): if the caller passed a
non-null error buffer of positive capacity, `snprintf(out, err_len, s)`
stores the diagnostic truncated to `err_len - 1` characters plus a NUL
terminator; otherwise nothing is written.  The returned value is the string
content written into the caller buffer (`none` = buffer untouched). -/
def write_error (s : String) (outError : Bool) (errLen : Int) : Option String :=
  if outError = true ∧ 0 < errLen then
    some (String.mk (s.data.take (errLen - 1).toNat))
  else
    none

/-- Control paths of `occt_load_from_memory` after the non-empty-input check,
as distinguished by the C++ code: temp-file creation failure, the STEP reader
path (transfer failure / null shape / success), the IGES fallback path
(likewise), no format matching, and the two catch clauses. -/
inductive LoadOutcome (S : Type) where
  | tmpFail
  | stepTransferFail
  | stepNullShape
  | stepOk (shape : S)
  | igesTransferFail
  | igesNullShape
  | igesOk (shape : S)
  | noFormat
  | exc (msg : String)
  | excUnknown
deriving DecidableEq

/-- Result of a handle-returning operation: the returned handle (0 on
failure), the updated global state, and the diagnostic written into the
caller error buffer (`none` = untouched). -/
structure HandleResult (S : Type) where
  handle : Nat
  state : WrapperState S
  errW : Option String
deriving DecidableEq

/-- Result of an int-returning operation (1 success / 0 failure). -/
structure RetResult (S : Type) where
  ret : Nat
  state : WrapperState S
  errW : Option String
deriving DecidableEq

/-- Result of a buffer-producing operation: return code, state, the write
records of `*out_len` and `*out_buf` (`none` = pointee untouched;
`some none` for `out_buf` = pointee set to null by a failed `malloc`),
and the error-buffer write. -/
structure BufResult (S B : Type) where
  ret : Nat
  state : WrapperState S
  outLenW : Option Nat
  outBufW : Option (Option B)
  errW : Option String
deriving DecidableEq

/-- `occt_load_from_memory` (occt_wrapper.cpp lines 70-140).  `data` is the
`(data, len)` pointer/length pair: `none` for a null pointer, otherwise the
byte list.  `write_temp_file` consumes one counter id (`fetch_add`) before it
can fail; on a successful parse a second id is consumed and the shape is
registered under it. -/
def occt_load_from_memory (st : WrapperState S) (filename : Option String)
    (data : Option (List Nat)) (outcome : LoadOutcome S)
    (outError : Bool) (errLen : Int) : HandleResult S :=
  if data = none ∨ data = some [] then
    ⟨0, st, write_error "empty input data" outError errLen⟩
  else
    match outcome with
    | .tmpFail =>
        ⟨0, ⟨st.registry, st.nextHandle + 1⟩,
          write_error "failed to create temp file" outError errLen⟩
    | .stepTransferFail =>
        ⟨0, ⟨st.registry, st.nextHandle + 1⟩,
          write_error "STEP transfer failed" outError errLen⟩
    | .stepNullShape =>
        ⟨0, ⟨st.registry, st.nextHandle + 1⟩,
          write_error "STEP produced empty shape" outError errLen⟩
    | .stepOk shape =>
        ⟨st.nextHandle + 1,
          ⟨regInsert st.registry (st.nextHandle + 1) shape, st.nextHandle + 2⟩, none⟩
    | .igesTransferFail =>
        ⟨0, ⟨st.registry, st.nextHandle + 1⟩,
          write_error "IGES transfer failed" outError errLen⟩
    | .igesNullShape =>
        ⟨0, ⟨st.registry, st.nextHandle + 1⟩,
          write_error "IGES produced empty shape" outError errLen⟩
    | .igesOk shape =>
        ⟨st.nextHandle + 1,
          ⟨regInsert st.registry (st.nextHandle + 1) shape, st.nextHandle + 2⟩, none⟩
    | .noFormat =>
        ⟨0, ⟨st.registry, st.nextHandle + 1⟩,
          write_error "failed to read as STEP or IGES" outError errLen⟩
    | .exc m =>
        ⟨0, ⟨st.registry, st.nextHandle + 1⟩,
          write_error ("exception: " ++ m) outError errLen⟩
    | .excUnknown =>
        ⟨0, ⟨st.registry, st.nextHandle + 1⟩,
          write_error "unknown exception during load" outError errLen⟩

/-- Control paths of the STEP-writer sequence inside `occt_export_step`:
writer transfer failure, file write failure, reopen failure, read failure,
or the file bytes successfully read back; plus the catch clause. -/
inductive ExportOutcome where
  | transferFail
  | writeFail
  | openFail
  | readFail
  | bytesRead (content : List Nat)
  | exc (msg : String)
deriving DecidableEq

/-- `occt_export_step` (occt_wrapper.cpp lines 142-197).  `outBufPtr` and
`outLenPtr` record whether the caller passed non-null `out_buf` / `out_len`;
`writer` is the kernel oracle for the STEP writer sequence; `mallocOk` is the
allocation oracle.  Note that on the `bytesRead` path the code stores
`*out_len = size` and `*out_buf = malloc(...)` before checking the
allocation, so a failed `malloc` leaves `*out_len` set and `*out_buf` null. -/
def occt_export_step (st : WrapperState S) (handle : Nat)
    (outBufPtr outLenPtr : Bool) (writer : S → ExportOutcome) (mallocOk : Bool)
    (outError : Bool) (errLen : Int) : BufResult S (List Nat) :=
  if outBufPtr = false ∨ outLenPtr = false then
    ⟨0, st, none, none, write_error "invalid output pointers" outError errLen⟩
  else
    match regFindIt st.registry handle with
    | none => ⟨0, st, none, none, write_error "handle not found" outError errLen⟩
    | some shape =>
      match writer shape with
      | .transferFail =>
          ⟨0, st, none, none, write_error "STEP transfer in writer failed" outError errLen⟩
      | .writeFail => ⟨0, st, none, none, write_error "STEP write failed" outError errLen⟩
      | .openFail =>
          ⟨0, st, none, none, write_error "cannot open tmp step for reading" outError errLen⟩
      | .readFail =>
          ⟨0, st, none, none, write_error "failed to read tmp step file" outError errLen⟩
      | .bytesRead content =>
          if mallocOk then
            ⟨1, st, some content.length, some (some content), none⟩
          else
            ⟨0, st, some content.length, some none, write_error "malloc failed" outError errLen⟩
      | .exc m => ⟨0, st, none, none, write_error ("exception: " ++ m) outError errLen⟩

/-- Kernel outcome of one `BRepAlgoAPI` boolean builder: `Build` succeeded
and produced a shape, `IsDone` returned false, or an exception escaped. -/
inductive KernelOutcome (S : Type) where
  | ok (shape : S)
  | notDone
  | exc (msg : String)
deriving DecidableEq

/-- The local `std::string s = op ? std::string(op) : std::string()` of
`occt_boolean`: the dereferenced operation name, empty for a null pointer. -/
def opName (op : Option String) : String :=
  match op with
  | some o => o
  | none => ""

/-- `occt_boolean` (occt_wrapper.cpp lines 225-273).  `op` is the C string
pointer (`none` = null); `kernelFuse`, `kernelCut`, `kernelCommon` are the
oracles for the three `BRepAlgoAPI` builders, applied to the two shapes and
the fuzzy tolerance. -/
def occt_boolean (st : WrapperState S) (target tool : Nat) (op : Option String)
    (tolerance : R) (kernelFuse kernelCut kernelCommon : S → S → R → KernelOutcome S)
    (outError : Bool) (errLen : Int) : HandleResult S :=
  match regFindIt st.registry target, regFindIt st.registry tool with
  | some ta, some ua =>
    if opName op = "union" ∨ opName op = "fuse" then
      match kernelFuse ta ua tolerance with
      | .ok result =>
          ⟨st.nextHandle,
            ⟨regInsert st.registry st.nextHandle result, st.nextHandle + 1⟩, none⟩
      | .notDone => ⟨0, st, write_error "fuse failed" outError errLen⟩
      | .exc m => ⟨0, st, write_error ("boolean exception: " ++ m) outError errLen⟩
    else if opName op = "cut" then
      match kernelCut ta ua tolerance with
      | .ok result =>
          ⟨st.nextHandle,
            ⟨regInsert st.registry st.nextHandle result, st.nextHandle + 1⟩, none⟩
      | .notDone => ⟨0, st, write_error "cut failed" outError errLen⟩
      | .exc m => ⟨0, st, write_error ("boolean exception: " ++ m) outError errLen⟩
    else if opName op = "common" ∨ opName op = "intersect" then
      match kernelCommon ta ua tolerance with
      | .ok result =>
          ⟨st.nextHandle,
            ⟨regInsert st.registry st.nextHandle result, st.nextHandle + 1⟩, none⟩
      | .notDone => ⟨0, st, write_error "common failed" outError errLen⟩
      | .exc m => ⟨0, st, write_error ("boolean exception: " ++ m) outError errLen⟩
    else
      ⟨0, st, write_error "unknown boolean operation" outError errLen⟩
  | _, _ => ⟨0, st, write_error "target or tool handle not found" outError errLen⟩

/-- `occt_fillet` (occt_wrapper.cpp lines 278-292): a documented stub that
ignores `edge_ids`, `radius` and `tolerance`, duplicates the target shape
under a fresh handle and returns that handle. -/
def occt_fillet (st : WrapperState S) (target : Nat) (edgeIds : List Nat)
    (radius tolerance : R) (outError : Bool) (errLen : Int) : HandleResult S :=
  match regFindIt st.registry target with
  | none => ⟨0, st, write_error "target handle not found" outError errLen⟩
  | some copyShape =>
      ⟨st.nextHandle,
        ⟨regInsert st.registry st.nextHandle copyShape, st.nextHandle + 1⟩, none⟩

/-- `occt_release_handle` (occt_wrapper.cpp lines 393-402). -/
def occt_release_handle (st : WrapperState S) (handle : Nat)
    (outError : Bool) (errLen : Int) : RetResult S :=
  match regFindIt st.registry handle with
  | none => ⟨0, st, write_error "handle not found" outError errLen⟩
  | some _ => ⟨1, ⟨regErase st.registry handle, st.nextHandle⟩, none⟩

/-- Kernel outcome of `BRepBndLib::Add` + `Bnd_Box::Get` inside
`occt_get_bounds`: the six extremal coordinates, or an exception. -/
inductive BoundsOutcome (R : Type) where
  | ok (xMin yMin zMin xMax yMax zMax : R)
  | exc (msg : String)
deriving DecidableEq

/-- Result of `occt_get_bounds`: return code, state, the write records of
the six nullable out-doubles, and the error-buffer write. -/
structure BoundsResult (S R : Type) where
  ret : Nat
  state : WrapperState S
  minxW : Option R
  minyW : Option R
  minzW : Option R
  maxxW : Option R
  maxyW : Option R
  maxzW : Option R
  errW : Option String
deriving DecidableEq

/-- `occt_get_bounds` (occt_wrapper.cpp lines 199-223).  The six `Bool`
flags record whether each of the nullable out-double pointers is non-null;
each pointee is written only when its pointer is non-null. -/
def occt_get_bounds (st : WrapperState S) (handle : Nat)
    (minxPtr minyPtr minzPtr maxxPtr maxyPtr maxzPtr : Bool)
    (kernelBounds : S → BoundsOutcome R)
    (outError : Bool) (errLen : Int) : BoundsResult S R :=
  match regFindIt st.registry handle with
  | none =>
      ⟨0, st, none, none, none, none, none, none,
        write_error "handle not found" outError errLen⟩
  | some shape =>
    match kernelBounds shape with
    | .ok xMin yMin zMin xMax yMax zMax =>
        ⟨1, st,
          if minxPtr then some xMin else none,
          if minyPtr then some yMin else none,
          if minzPtr then some zMin else none,
          if maxxPtr then some xMax else none,
          if maxyPtr then some yMax else none,
          if maxzPtr then some zMax else none,
          none⟩
    | .exc m =>
        ⟨0, st, none, none, none, none, none, none,
          write_error ("bounds exception: " ++ m) outError errLen⟩

/-- One triangulation node (`gp_Pnt` after the location transform), carried
as the textual coordinates the stream insertion prints. -/
structure Pnt where
  x : String
  y : String
  z : String
deriving DecidableEq

/-- The triangulation the kernel attached to one face: the node list (in
OCCT 1-based order) and the triangle list, each triangle a triple of
1-based local node indices. -/
structure FaceTri where
  nodes : List Pnt
  triangles : List (Nat × Nat × Nat)
deriving DecidableEq

/-- The `localToGlobal` table of `occt_generate_mesh_obj`: local node index
`n` of a face whose nodes start at global offset `offset` maps to the
1-based global index `offset + n`; indices outside `1..nNodes` stay at the
`-1` initialisation. -/
def localToGlobal (offset nNodes n : Nat) : Int :=
  if 1 ≤ n ∧ n ≤ nNodes then (offset : Int) + (n : Int) else -1

/-- The body of the face loop of `occt_generate_mesh_obj` for one face:
faces without triangulation (`tri.IsNull()`) are skipped; otherwise the
nodes are appended to the global vertex list and each triangle whose mapped
indices are all positive is appended to the global face list. -/
def meshAccumFace (acc : List Pnt × List (Int × Int × Int)) (f : Option FaceTri) :
    List Pnt × List (Int × Int × Int) :=
  match f with
  | none => acc
  | some ft =>
    (acc.1 ++ ft.nodes,
      acc.2 ++ ft.triangles.filterMap (fun t =>
        if localToGlobal acc.1.length ft.nodes.length t.1 ≤ 0 ∨
            localToGlobal acc.1.length ft.nodes.length t.2.1 ≤ 0 ∨
            localToGlobal acc.1.length ft.nodes.length t.2.2 ≤ 0 then
          none
        else
          some (localToGlobal acc.1.length ft.nodes.length t.1,
            localToGlobal acc.1.length ft.nodes.length t.2.1,
            localToGlobal acc.1.length ft.nodes.length t.2.2)))

/-- `global_vertices` and `global_faces` after the face loop of
`occt_generate_mesh_obj`. -/
def globalMesh (faces : List (Option FaceTri)) : List Pnt × List (Int × Int × Int) :=
  faces.foldl meshAccumFace ([], [])

/-- One vertex line of the text export. -/
def vertexLine (p : Pnt) : String :=
  "v " ++ p.x ++ " " ++ p.y ++ " " ++ p.z ++ "\n"

/-- One face line of the text export. -/
def faceLine (t : Int × Int × Int) : String :=
  "f " ++ toString t.1 ++ " " ++ toString t.2.1 ++ " " ++ toString t.2.2 ++ "\n"

/-- The complete text the `std::ostringstream` holds at the end of
`occt_generate_mesh_obj`: header, then one line per global vertex, then one
line per global face. -/
def objText (faces : List (Option FaceTri)) : String :=
  "# qutlas occt obj\n"
    ++ String.join ((globalMesh faces).1.map vertexLine)
    ++ String.join ((globalMesh faces).2.map faceLine)

/-- Kernel outcome of the meshing phase of `occt_generate_mesh_obj`: the
per-face triangulations found by the face explorer (in explorer order,
`none` for a face whose triangulation is null), or an exception. -/
inductive MeshOutcome where
  | faces (fs : List (Option FaceTri))
  | exc (msg : String)
deriving DecidableEq

/-- `occt_generate_mesh_obj` (occt_wrapper.cpp lines 294-387).  `deflection`
and `linear` are passed through to the mesher oracle (the `defl > 0` default
selection is part of the kernel invocation the oracle abstracts).  As in
`occt_export_step`, on the success path the code stores `*out_len` and
`*out_buf = malloc(...)` before checking the allocation. -/
def occt_generate_mesh_obj (st : WrapperState S) (handle : Nat)
    (deflection : R) (linear : Int) (outBufPtr outLenPtr : Bool)
    (mesher : S → R → Int → MeshOutcome) (mallocOk : Bool)
    (outError : Bool) (errLen : Int) : BufResult S String :=
  if outBufPtr = false ∨ outLenPtr = false then
    ⟨0, st, none, none, write_error "invalid output pointers" outError errLen⟩
  else
    match regFindIt st.registry handle with
    | none => ⟨0, st, none, none, write_error "handle not found" outError errLen⟩
    | some shape =>
      match mesher shape deflection linear with
      | .faces fs =>
          if mallocOk then
            ⟨1, st, some (objText fs).length, some (some (objText fs)), none⟩
          else
            ⟨0, st, some (objText fs).length, some none,
              write_error "malloc failed" outError errLen⟩
      | .exc m => ⟨0, st, none, none, write_error ("mesh exception: " ++ m) outError errLen⟩

/-- Well-formedness of the global state, established by initialisation
(`next_handle{1}`, empty map) and preserved by every operation: the counter
is at least 1, registry keys are pairwise distinct, and every registered
handle was issued by the counter, hence is below its current value. -/
def WF (st : WrapperState S) : Prop :=
  1 ≤ st.nextHandle ∧ (st.registry.map Prod.fst).Nodup ∧
    ∀ p ∈ st.registry, p.1 < st.nextHandle

instance (st : WrapperState S) : Decidable (WF st) := by
  unfold WF
  infer_instance

end Model

section RegistryLemmas

variable {S R : Type}

theorem regFindIt_eq_none_of_not_mem (reg : List (Nat × S)) (h : Nat)
    (hmem : h ∉ reg.map Prod.fst) : regFindIt reg h = none := by
  induction reg with
  | nil => rfl
  | cons p rest ih =>
      simp only [List.map_cons, List.mem_cons, not_or] at hmem
      have hne : ¬ p.1 = h := fun hc => hmem.1 hc.symm
      simp only [regFindIt, if_neg hne]
      exact ih hmem.2

theorem regFindIt_mem_keys (reg : List (Nat × S)) (h : Nat) (s : S)
    (hf : regFindIt reg h = some s) : h ∈ reg.map Prod.fst := by
  induction reg with
  | nil => simp [regFindIt] at hf
  | cons p rest ih =>
      by_cases hc : p.1 = h
      · simp [hc]
      · simp only [regFindIt, if_neg hc] at hf
        simp [ih hf]

theorem regFindIt_insert (reg : List (Nat × S)) (h k : Nat) (s : S) :
    regFindIt (regInsert reg h s) k = if k = h then some s else regFindIt reg k := by
  induction reg with
  | nil =>
      by_cases hk : k = h
      · subst hk
        simp [regInsert, regFindIt]
      · have h1 : ¬ h = k := fun hc => hk hc.symm
        simp [regInsert, regFindIt, hk, h1]
  | cons p rest ih =>
      by_cases hp : p.1 = h
      · by_cases hk : k = h
        · subst hk
          simp [regInsert, regFindIt, hp]
        · have h1 : ¬ h = k := fun hc => hk hc.symm
          simp [regInsert, regFindIt, hp, hk, h1]
      · by_cases hk2 : p.1 = k
        · have hkh : ¬ k = h := fun hc => hp (hk2.trans hc)
          simp [regInsert, regFindIt, hp, hk2, hkh]
        · simp [regInsert, regFindIt, hp, hk2, ih]

theorem regInsert_keys_fresh (reg : List (Nat × S)) (h : Nat) (s : S)
    (hmem : h ∉ reg.map Prod.fst) :
    (regInsert reg h s).map Prod.fst = reg.map Prod.fst ++ [h] := by
  induction reg with
  | nil => rfl
  | cons p rest ih =>
      simp only [List.map_cons, List.mem_cons, not_or] at hmem
      have hne : ¬ p.1 = h := fun hc => hmem.1 hc.symm
      simp only [regInsert, if_neg hne, List.map_cons, ih hmem.2, List.cons_append]

theorem regErase_sublist (reg : List (Nat × S)) (h : Nat) :
    (regErase reg h).Sublist reg := by
  induction reg with
  | nil => exact List.Sublist.refl _
  | cons p rest ih =>
      simp only [regErase]
      by_cases hp : p.1 = h
      · rw [if_pos hp]
        exact List.sublist_cons_self p rest
      · rw [if_neg hp]
        exact List.Sublist.cons₂ p ih

theorem regFindIt_erase_self (reg : List (Nat × S)) (h : Nat)
    (hnd : (reg.map Prod.fst).Nodup) : regFindIt (regErase reg h) h = none := by
  induction reg with
  | nil => rfl
  | cons p rest ih =>
      simp only [List.map_cons, List.nodup_cons] at hnd
      by_cases hp : p.1 = h
      · simp only [regErase, if_pos hp]
        exact regFindIt_eq_none_of_not_mem rest h (hp ▸ hnd.1)
      · simp only [regErase, if_neg hp, regFindIt]
        exact ih hnd.2

theorem mem_regInsert (reg : List (Nat × S)) (h : Nat) (s : S) (p : Nat × S)
    (hp : p ∈ regInsert reg h s) : p ∈ reg ∨ p = (h, s) := by
  induction reg with
  | nil =>
      right
      simpa [regInsert] using hp
  | cons q rest ih =>
      simp only [regInsert] at hp
      by_cases hq : q.1 = h
      · rw [if_pos hq] at hp
        rcases List.mem_cons.mp hp with hc | hc
        · right; exact hc
        · left; exact List.mem_cons_of_mem q hc
      · rw [if_neg hq] at hp
        rcases List.mem_cons.mp hp with hc | hc
        · left
          rw [hc]
          exact List.mem_cons_self q rest
        · rcases ih hc with hc2 | hc2
          · left; exact List.mem_cons_of_mem q hc2
          · right; exact hc2

/-- Registering a shape under the current counter value preserves
well-formedness. -/
theorem WF_register (st : WrapperState S) (s : S) (hwf : WF st) :
    WF ⟨regInsert st.registry st.nextHandle s, st.nextHandle + 1⟩ := by
  obtain ⟨h1, hnd, hbd⟩ := hwf
  have hfresh : st.nextHandle ∉ st.registry.map Prod.fst := by
    intro hc
    obtain ⟨p, hp, hfst⟩ := List.mem_map.mp hc
    exact absurd (hfst ▸ hbd p hp) (lt_irrefl _)
  refine ⟨le_trans h1 (Nat.le_succ _), ?_, ?_⟩
  · show (List.map Prod.fst (regInsert st.registry st.nextHandle s)).Nodup
    rw [regInsert_keys_fresh _ _ _ hfresh]
    refine List.Nodup.append hnd (List.nodup_singleton _) ?_
    intro a ha hb
    simp only [List.mem_singleton] at hb
    exact hfresh (hb ▸ ha)
  · intro p hp
    rcases mem_regInsert _ _ _ _ hp with hc | hc
    · exact lt_trans (hbd p hc) (Nat.lt_succ_self _)
    · rw [hc]
      exact Nat.lt_succ_self _

/-- Bumping the counter preserves well-formedness. -/
theorem WF_bump (st : WrapperState S) (hwf : WF st) :
    WF (⟨st.registry, st.nextHandle + 1⟩ : WrapperState S) := by
  obtain ⟨h1, hnd, hbd⟩ := hwf
  exact ⟨le_trans h1 (Nat.le_succ _), hnd,
    fun p hp => lt_trans (hbd p hp) (Nat.lt_succ_self _)⟩

/-- Erasing an entry preserves well-formedness. -/
theorem WF_erase (st : WrapperState S) (h : Nat) (hwf : WF st) :
    WF (⟨regErase st.registry h, st.nextHandle⟩ : WrapperState S) := by
  obtain ⟨h1, hnd, hbd⟩ := hwf
  have hsub := regErase_sublist st.registry h
  exact ⟨h1, hnd.sublist (hsub.map Prod.fst),
    fun p hp => hbd p (hsub.mem hp)⟩

end RegistryLemmas

section Trace

variable {S R : Type}

/-- `occt_export_step` never mutates the registry or the counter. -/
theorem occt_export_step_state (st : WrapperState S) (h : Nat) (bp lp : Bool)
    (w : S → ExportOutcome) (m eb : Bool) (el : Int) :
    (occt_export_step st h bp lp w m eb el).state = st := by
  unfold occt_export_step
  repeat' split
  all_goals rfl

/-- `occt_generate_mesh_obj` never mutates the registry or the counter. -/
theorem occt_generate_mesh_obj_state (st : WrapperState S) (h : Nat) (d : R) (l : Int)
    (bp lp : Bool) (ms : S → R → Int → MeshOutcome) (m eb : Bool) (el : Int) :
    (occt_generate_mesh_obj st h d l bp lp ms m eb el).state = st := by
  unfold occt_generate_mesh_obj
  repeat' split
  all_goals rfl

/-- `occt_get_bounds` never mutates the registry or the counter. -/
theorem occt_get_bounds_state (st : WrapperState S) (h : Nat)
    (p1 p2 p3 p4 p5 p6 : Bool) (kb : S → BoundsOutcome R) (eb : Bool) (el : Int) :
    (occt_get_bounds st h p1 p2 p3 p4 p5 p6 kb eb el).state = st := by
  unfold occt_get_bounds
  repeat' split
  all_goals rfl

/-- One call into the facade, with all its inputs and kernel oracles.  Used
to reason about arbitrary sequences of operations against the shared
registry state. -/
inductive TraceOp (S R : Type) where
  | loadOp (filename : Option String) (data : Option (List Nat))
      (outcome : LoadOutcome S) (outError : Bool) (errLen : Int)
  | booleanOp (target tool : Nat) (op : Option String) (tolerance : R)
      (kernelFuse kernelCut kernelCommon : S → S → R → KernelOutcome S)
      (outError : Bool) (errLen : Int)
  | filletOp (target : Nat) (edgeIds : List Nat) (radius tolerance : R)
      (outError : Bool) (errLen : Int)
  | releaseOp (handle : Nat) (outError : Bool) (errLen : Int)
  | exportOp (handle : Nat) (outBufPtr outLenPtr : Bool)
      (writer : S → ExportOutcome) (mallocOk : Bool) (outError : Bool) (errLen : Int)
  | meshOp (handle : Nat) (deflection : R) (linear : Int)
      (outBufPtr outLenPtr : Bool) (mesher : S → R → Int → MeshOutcome)
      (mallocOk : Bool) (outError : Bool) (errLen : Int)
  | boundsOp (handle : Nat) (minxPtr minyPtr minzPtr maxxPtr maxyPtr maxzPtr : Bool)
      (kernelBounds : S → BoundsOutcome R) (outError : Bool) (errLen : Int)

/-- Apply one facade call to the state; the second component is the handle
the call returned when it returned a nonzero handle (`none` for the
non-handle-returning calls and for failures, which return 0). -/
def runOp (st : WrapperState S) : TraceOp S R → WrapperState S × Option Nat
  | .loadOp fn data oc eb el =>
      let r := occt_load_from_memory st fn data oc eb el
      (r.state, if r.handle = 0 then none else some r.handle)
  | .booleanOp a b op tol kf kc km eb el =>
      let r := occt_boolean st a b op tol kf kc km eb el
      (r.state, if r.handle = 0 then none else some r.handle)
  | .filletOp t es rad tol eb el =>
      let r := occt_fillet st t es rad tol eb el
      (r.state, if r.handle = 0 then none else some r.handle)
  | .releaseOp h eb el => ((occt_release_handle st h eb el).state, none)
  | .exportOp h bp lp w m eb el => ((occt_export_step st h bp lp w m eb el).state, none)
  | .meshOp h d l bp lp ms m eb el =>
      ((occt_generate_mesh_obj st h d l bp lp ms m eb el).state, none)
  | .boundsOp h p1 p2 p3 p4 p5 p6 kb eb el =>
      ((occt_get_bounds st h p1 p2 p3 p4 p5 p6 kb eb el).state, none)

/-- Run a sequence of facade calls, collecting the handles returned by the
successful handle-returning calls, in order. -/
def runTrace : WrapperState S → List (TraceOp S R) → WrapperState S × List Nat
  | st, [] => (st, [])
  | st, op :: ops =>
      ((runTrace (runOp st op).1 ops).1,
        ((runOp st op).2.toList) ++ (runTrace (runOp st op).1 ops).2)

/-- Effect of one facade call on the allocator state: well-formedness is
preserved, the counter never decreases, and a returned nonzero handle lies
between the old and the new counter value. -/
theorem runOp_spec (st : WrapperState S) (op : TraceOp S R) (hwf : WF st) :
    WF (runOp st op).1 ∧ st.nextHandle ≤ (runOp st op).1.nextHandle ∧
      ∀ h, (runOp st op).2 = some h →
        st.nextHandle ≤ h ∧ h < (runOp st op).1.nextHandle := by
  have hne0 : ¬ st.nextHandle = 0 := Nat.one_le_iff_ne_zero.mp hwf.1
  cases op with
  | loadOp fn data oc eb el =>
      simp only [runOp, occt_load_from_memory]
      by_cases hd : data = none ∨ data = some []
      · rw [if_pos hd]
        exact ⟨hwf, le_refl _, fun h hc => by simp at hc⟩
      · rw [if_neg hd]
        have hbump := WF_bump st hwf
        have hnew : ∀ shape : S,
            WF (⟨regInsert st.registry (st.nextHandle + 1) shape,
              st.nextHandle + 2⟩ : WrapperState S) :=
          fun shape => WF_register ⟨st.registry, st.nextHandle + 1⟩ shape hbump
        cases oc with
        | stepOk shape =>
            refine ⟨hnew shape, Nat.le_add_right _ 2, fun h hc => ?_⟩
            rw [if_neg (Nat.succ_ne_zero _)] at hc
            cases hc
            exact ⟨Nat.le_succ _, Nat.lt_succ_self _⟩
        | igesOk shape =>
            refine ⟨hnew shape, Nat.le_add_right _ 2, fun h hc => ?_⟩
            rw [if_neg (Nat.succ_ne_zero _)] at hc
            cases hc
            exact ⟨Nat.le_succ _, Nat.lt_succ_self _⟩
        | tmpFail => exact ⟨hbump, Nat.le_succ _, fun h hc => by simp at hc⟩
        | stepTransferFail => exact ⟨hbump, Nat.le_succ _, fun h hc => by simp at hc⟩
        | stepNullShape => exact ⟨hbump, Nat.le_succ _, fun h hc => by simp at hc⟩
        | igesTransferFail => exact ⟨hbump, Nat.le_succ _, fun h hc => by simp at hc⟩
        | igesNullShape => exact ⟨hbump, Nat.le_succ _, fun h hc => by simp at hc⟩
        | noFormat => exact ⟨hbump, Nat.le_succ _, fun h hc => by simp at hc⟩
        | exc m => exact ⟨hbump, Nat.le_succ _, fun h hc => by simp at hc⟩
        | excUnknown => exact ⟨hbump, Nat.le_succ _, fun h hc => by simp at hc⟩
  | booleanOp a b op tol kf kc km eb el =>
      have htriv : WF st ∧ st.nextHandle ≤ st.nextHandle ∧
          ∀ h, (if (0 : Nat) = 0 then (none : Option Nat) else some 0) = some h →
            st.nextHandle ≤ h ∧ h < st.nextHandle :=
        ⟨hwf, le_refl _, fun h hc => by simp at hc⟩
      have hreg : ∀ shp : S,
          WF (⟨regInsert st.registry st.nextHandle shp, st.nextHandle + 1⟩ : WrapperState S) ∧
            st.nextHandle ≤ st.nextHandle + 1 ∧
            ∀ h, (if st.nextHandle = 0 then (none : Option Nat) else some st.nextHandle)
                = some h → st.nextHandle ≤ h ∧ h < st.nextHandle + 1 := by
        intro shp
        refine ⟨WF_register st shp hwf, Nat.le_succ _, fun h hc => ?_⟩
        rw [if_neg hne0] at hc
        cases hc
        exact ⟨le_refl _, Nat.lt_succ_self _⟩
      simp only [runOp, occt_boolean]
      rcases hfa : regFindIt st.registry a with _ | ta
      · exact htriv
      rcases hfb : regFindIt st.registry b with _ | ub
      · exact htriv
      dsimp only
      by_cases h1 : opName op = "union" ∨ opName op = "fuse"
      · rw [if_pos h1]
        cases kf ta ub tol with
        | ok result => exact hreg result
        | notDone => exact htriv
        | exc m => exact htriv
      rw [if_neg h1]
      by_cases h2 : opName op = "cut"
      · rw [if_pos h2]
        cases kc ta ub tol with
        | ok result => exact hreg result
        | notDone => exact htriv
        | exc m => exact htriv
      rw [if_neg h2]
      by_cases h3 : opName op = "common" ∨ opName op = "intersect"
      · rw [if_pos h3]
        cases km ta ub tol with
        | ok result => exact hreg result
        | notDone => exact htriv
        | exc m => exact htriv
      rw [if_neg h3]
      exact htriv
  | filletOp t es rad tol eb el =>
      simp only [runOp, occt_fillet]
      rcases hft : regFindIt st.registry t with _ | shp
      · exact ⟨hwf, le_refl _, fun h hc => by simp at hc⟩
      · refine ⟨WF_register st shp hwf, Nat.le_succ _, fun h hc => ?_⟩
        rw [if_neg hne0] at hc
        cases hc
        exact ⟨le_refl _, Nat.lt_succ_self _⟩
  | releaseOp h eb el =>
      simp only [runOp, occt_release_handle]
      rcases hf : regFindIt st.registry h with _ | shp
      · exact ⟨hwf, le_refl _, fun h2 hc => by simp at hc⟩
      · exact ⟨WF_erase st h hwf, le_refl _, fun h2 hc => by simp at hc⟩
  | exportOp h bp lp w m eb el =>
      have hstate : (runOp st (TraceOp.exportOp (R := R) h bp lp w m eb el)).1 = st := by
        simp only [runOp, occt_export_step_state]
      rw [hstate]
      exact ⟨hwf, le_refl _, fun h2 hc => by simp [runOp] at hc⟩
  | meshOp h d l bp lp ms m eb el =>
      have hstate : (runOp st (TraceOp.meshOp h d l bp lp ms m eb el)).1 = st := by
        simp only [runOp, occt_generate_mesh_obj_state]
      rw [hstate]
      exact ⟨hwf, le_refl _, fun h2 hc => by simp [runOp] at hc⟩
  | boundsOp h p1 p2 p3 p4 p5 p6 kb eb el =>
      have hstate : (runOp st (TraceOp.boundsOp h p1 p2 p3 p4 p5 p6 kb eb el)).1 = st := by
        simp only [runOp, occt_get_bounds_state]
      rw [hstate]
      exact ⟨hwf, le_refl _, fun h2 hc => by simp [runOp] at hc⟩

/-- Along any trace from a well-formed state: well-formedness is preserved,
the counter never decreases, every collected handle lies in the counter
window of the trace, and the collected handles are strictly increasing in
issue order. -/
theorem runTrace_spec (st : WrapperState S) (ops : List (TraceOp S R)) (hwf : WF st) :
    WF (runTrace st ops).1 ∧ st.nextHandle ≤ (runTrace st ops).1.nextHandle ∧
      (∀ h ∈ (runTrace st ops).2, st.nextHandle ≤ h ∧ h < (runTrace st ops).1.nextHandle) ∧
      (runTrace st ops).2.Pairwise (· < ·) := by
  induction ops generalizing st with
  | nil =>
      exact ⟨hwf, le_refl _, fun h hc => absurd hc (List.not_mem_nil h), List.Pairwise.nil⟩
  | cons op ops ih =>
      obtain ⟨hwf1, hle1, hho⟩ := runOp_spec st op hwf
      obtain ⟨hwfF, hleF, hmemF, hpwF⟩ := ih (runOp st op).1 hwf1
      have hsome : ∀ h, h ∈ (runOp st op).2.toList → (runOp st op).2 = some h := by
        intro h hc
        cases hop : (runOp st op).2 with
        | none => rw [hop] at hc; simp at hc
        | some h2 =>
            rw [hop] at hc
            simp only [Option.toList_some, List.mem_singleton] at hc
            rw [hc]
      simp only [runTrace]
      refine ⟨hwfF, le_trans hle1 hleF, ?_, ?_⟩
      · intro h hc
        rcases List.mem_append.mp hc with hc1 | hc2
        · obtain ⟨hlo, hhi⟩ := hho h (hsome h hc1)
          exact ⟨hlo, lt_of_lt_of_le hhi hleF⟩
        · obtain ⟨hlo, hhi⟩ := hmemF h hc2
          exact ⟨le_trans hle1 hlo, hhi⟩
      · rw [List.pairwise_append]
        refine ⟨?_, hpwF, ?_⟩
        · cases (runOp st op).2 with
          | none => exact List.Pairwise.nil
          | some h2 => simp
        · intro a ha b hb
          obtain ⟨_, hhi⟩ := hho a (hsome a ha)
          obtain ⟨hlo2, _⟩ := hmemF b hb
          exact lt_of_lt_of_le hhi hlo2

end Trace

section MeshLemmas

/-- A triangle index triple is a valid 1-based reference into a vertex list
of length `n`. -/
def idxOk (n : Nat) (t : Int × Int × Int) : Prop :=
  1 ≤ t.1 ∧ t.1 ≤ (n : Int) ∧ 1 ≤ t.2.1 ∧ t.2.1 ≤ (n : Int) ∧
    1 ≤ t.2.2 ∧ t.2.2 ≤ (n : Int)

instance (n : Nat) (t : Int × Int × Int) : Decidable (idxOk n t) := by
  unfold idxOk
  infer_instance

theorem localToGlobal_le (o n i : Nat) :
    localToGlobal o n i ≤ (o : Int) + (n : Int) := by
  unfold localToGlobal
  split
  · next h => exact add_le_add_left (Int.ofNat_le.mpr h.2) _
  · have h0 : (0 : Int) ≤ (o : Int) + (n : Int) := by positivity
    omega

/-- The global vertex list built by the face loop is the plain concatenation
of the per-face node lists, past any accumulator: no deduplication across
faces. -/
theorem meshFold_fst (faces : List (Option FaceTri))
    (acc : List Pnt × List (Int × Int × Int)) :
    (faces.foldl meshAccumFace acc).1 =
      acc.1 ++ ((faces.filterMap id).map FaceTri.nodes).flatten := by
  induction faces generalizing acc with
  | nil => simp
  | cons f rest ih =>
      cases f with
      | none => simp [meshAccumFace, ih]
      | some ft => simp [meshAccumFace, ih, List.append_assoc]

/-- Every triangle emitted for one face references indices within the
extended vertex list. -/
theorem meshAccumFace_ok (acc : List Pnt × List (Int × Int × Int)) (f : Option FaceTri)
    (hacc : ∀ t ∈ acc.2, idxOk acc.1.length t) :
    ∀ t ∈ (meshAccumFace acc f).2, idxOk (meshAccumFace acc f).1.length t := by
  cases f with
  | none => exact hacc
  | some ft =>
      intro t ht
      simp only [meshAccumFace] at ht ⊢
      rw [List.length_append]
      rcases List.mem_append.mp ht with hc | hc
      · have hold := hacc t hc
        unfold idxOk at hold ⊢
        omega
      · obtain ⟨a, ha, hfa⟩ := List.mem_filterMap.mp hc
        by_cases hg : localToGlobal acc.1.length ft.nodes.length a.1 ≤ 0 ∨
            localToGlobal acc.1.length ft.nodes.length a.2.1 ≤ 0 ∨
            localToGlobal acc.1.length ft.nodes.length a.2.2 ≤ 0
        · rw [if_pos hg] at hfa
          exact absurd hfa (by simp)
        · rw [if_neg hg] at hfa
          push_neg at hg
          obtain ⟨hg1, hg2, hg3⟩ := hg
          have hb1 := localToGlobal_le acc.1.length ft.nodes.length a.1
          have hb2 := localToGlobal_le acc.1.length ft.nodes.length a.2.1
          have hb3 := localToGlobal_le acc.1.length ft.nodes.length a.2.2
          simp only [Option.some.injEq] at hfa
          subst hfa
          unfold idxOk
          dsimp only
          refine ⟨by omega, by omega, by omega, by omega, by omega, by omega⟩

/-- Every triangle in the folded global face list references indices within
the folded global vertex list. -/
theorem meshFold_snd_ok (faces : List (Option FaceTri))
    (acc : List Pnt × List (Int × Int × Int))
    (hacc : ∀ t ∈ acc.2, idxOk acc.1.length t) :
    ∀ t ∈ (faces.foldl meshAccumFace acc).2,
      idxOk (faces.foldl meshAccumFace acc).1.length t := by
  induction faces generalizing acc with
  | nil => exact hacc
  | cons f rest ih =>
      simp only [List.foldl_cons]
      exact ih (meshAccumFace acc f) (meshAccumFace_ok acc f hacc)

/-- The triangles of the global mesh reference valid 1-based indices into
the global vertex list. -/
theorem globalMesh_idx_ok (faces : List (Option FaceTri)) :
    ∀ t ∈ (globalMesh faces).2, idxOk (globalMesh faces).1.length t :=
  meshFold_snd_ok faces ([], []) (fun t ht => absurd ht (List.not_mem_nil t))

/-- The global vertex list is the concatenation of per-face node lists. -/
theorem globalMesh_vertices (faces : List (Option FaceTri)) :
    (globalMesh faces).1 = ((faces.filterMap id).map FaceTri.nodes).flatten := by
  unfold globalMesh
  rw [meshFold_fst]
  rfl

end MeshLemmas

section Claims

variable {S R : Type}

/-- Claim C5: for every filename hint, calling `occt_load_from_memory` with
a null or empty byte sequence always fails with the InputError diagnostic
(the literal text `empty input data`), returns handle 0, allocates no
handle (the counter is not even bumped) and leaves the registry unchanged. -/
theorem load_empty_input_rejected (st : WrapperState S) (fn : Option String)
    (data : Option (List Nat)) (oc : LoadOutcome S) (eb : Bool) (el : Int)
    (hempty : data = none ∨ data = some []) :
    occt_load_from_memory st fn data oc eb el =
      ⟨0, st, write_error "empty input data" eb el⟩ := by
  unfold occt_load_from_memory
  rw [if_pos hempty]

/-- Witness for C5 at a concrete input: empty bytes with a nonempty registry. -/
theorem load_empty_input_rejected_witness :
    occt_load_from_memory (S := Nat) ⟨[(1, 7)], 2⟩ (some "part.step") (some [])
        LoadOutcome.noFormat true 64 =
      ⟨0, ⟨[(1, 7)], 2⟩, some "empty input data"⟩ := by
  rw [load_empty_input_rejected ⟨[(1, 7)], 2⟩ (some "part.step") (some [])
    LoadOutcome.noFormat true 64 (Or.inr rfl)]
  rfl

/-- Claim C4: releasing a registered handle returns 1 with no diagnostic and
removes the entry; an immediately repeated release of the same handle
returns 0 with the NotFound diagnostic (the literal text
`handle not found`) rather than being a no-op. -/
theorem release_then_release_again (st : WrapperState S) (h : Nat) (s : S)
    (eb : Bool) (el : Int) (hwf : WF st)
    (hreg : regFindIt st.registry h = some s) :
    (occt_release_handle st h eb el).ret = 1 ∧
    (occt_release_handle st h eb el).errW = none ∧
    regFindIt (occt_release_handle st h eb el).state.registry h = none ∧
    (occt_release_handle (occt_release_handle st h eb el).state h eb el).ret = 0 ∧
    (occt_release_handle (occt_release_handle st h eb el).state h eb el).errW =
      write_error "handle not found" eb el := by
  have h1 : occt_release_handle st h eb el =
      ⟨1, ⟨regErase st.registry h, st.nextHandle⟩, none⟩ := by
    unfold occt_release_handle
    rw [hreg]
  have h2 : regFindIt (regErase st.registry h) h = none :=
    regFindIt_erase_self st.registry h hwf.2.1
  rw [h1]
  refine ⟨rfl, rfl, h2, ?_⟩
  unfold occt_release_handle
  dsimp only
  rw [h2]
  exact ⟨rfl, rfl⟩

/-- Witness for C4 at a concrete registry holding one handle. -/
theorem release_then_release_again_witness :
    (occt_release_handle (S := Nat) ⟨[(1, 7)], 2⟩ 1 true 64).ret = 1 ∧
    (occt_release_handle (S := Nat) ⟨[(1, 7)], 2⟩ 1 true 64).errW = none ∧
    regFindIt (occt_release_handle (S := Nat) ⟨[(1, 7)], 2⟩ 1 true 64).state.registry
      1 = none ∧
    (occt_release_handle
      (occt_release_handle (S := Nat) ⟨[(1, 7)], 2⟩ 1 true 64).state 1 true 64).ret = 0 ∧
    (occt_release_handle
      (occt_release_handle (S := Nat) ⟨[(1, 7)], 2⟩ 1 true 64).state 1 true 64).errW =
      write_error "handle not found" true 64 :=
  release_then_release_again ⟨[(1, 7)], 2⟩ 1 7 true 64 (by decide) rfl

/-- Claim C6: on a registered target, the fillet stub returns a fresh
nonzero handle distinct from the target, registers under it exactly the
shape stored under the target (no fillet geometry is applied), leaves the
target entry unchanged and writes no diagnostic; on an unregistered target
it fails with the NotFound diagnostic and changes nothing. -/
theorem fillet_stub_duplicates (st : WrapperState S) (t : Nat) (edges : List Nat)
    (radius tol : R) (eb : Bool) (el : Int) (hwf : WF st) :
    (∀ s, regFindIt st.registry t = some s →
      (occt_fillet st t edges radius tol eb el).handle ≠ 0 ∧
      (occt_fillet st t edges radius tol eb el).handle ≠ t ∧
      regFindIt (occt_fillet st t edges radius tol eb el).state.registry
        (occt_fillet st t edges radius tol eb el).handle = some s ∧
      regFindIt (occt_fillet st t edges radius tol eb el).state.registry t = some s ∧
      (occt_fillet st t edges radius tol eb el).errW = none) ∧
    (regFindIt st.registry t = none →
      occt_fillet st t edges radius tol eb el =
        ⟨0, st, write_error "target handle not found" eb el⟩) := by
  constructor
  · intro s hreg
    have heq : occt_fillet st t edges radius tol eb el =
        ⟨st.nextHandle, ⟨regInsert st.registry st.nextHandle s, st.nextHandle + 1⟩,
          none⟩ := by
      unfold occt_fillet
      rw [hreg]
    have htlt : t < st.nextHandle := by
      have hmem := regFindIt_mem_keys st.registry t s hreg
      obtain ⟨p, hp, hfst⟩ := List.mem_map.mp hmem
      exact hfst ▸ hwf.2.2 p hp
    rw [heq]
    refine ⟨Nat.one_le_iff_ne_zero.mp hwf.1, (Nat.ne_of_lt htlt).symm, ?_, ?_, rfl⟩
    · dsimp only
      rw [regFindIt_insert, if_pos rfl]
    · dsimp only
      rw [regFindIt_insert, if_neg (Nat.ne_of_lt htlt), hreg]
  · intro hnone
    unfold occt_fillet
    rw [hnone]

/-- Witness for C6 at a concrete registry holding one handle. -/
theorem fillet_stub_duplicates_witness :
    (occt_fillet (S := Nat) (R := Int) ⟨[(1, 7)], 2⟩ 1 [4] 3 0 true 64).handle ≠ 0 ∧
    (occt_fillet (S := Nat) (R := Int) ⟨[(1, 7)], 2⟩ 1 [4] 3 0 true 64).handle ≠ 1 ∧
    regFindIt (occt_fillet (S := Nat) (R := Int)
      ⟨[(1, 7)], 2⟩ 1 [4] 3 0 true 64).state.registry
      (occt_fillet (S := Nat) (R := Int) ⟨[(1, 7)], 2⟩ 1 [4] 3 0 true 64).handle =
      some 7 ∧
    regFindIt (occt_fillet (S := Nat) (R := Int)
      ⟨[(1, 7)], 2⟩ 1 [4] 3 0 true 64).state.registry 1 = some 7 ∧
    (occt_fillet (S := Nat) (R := Int) ⟨[(1, 7)], 2⟩ 1 [4] 3 0 true 64).errW = none :=
  (fillet_stub_duplicates ⟨[(1, 7)], 2⟩ 1 [4] 3 0 true 64 (by decide)).1 7 rfl

/-- Claim C10: with a null out-buffer or out-length pointer, each
buffer-producing operation fails with return code 0 and the
invalid-output-pointers diagnostic before any registry lookup or kernel
work: the result is the same for every registry content, kernel oracle and
allocation oracle, the state is returned unchanged and both out-parameters
are untouched. -/
theorem null_out_pointers_rejected (st : WrapperState S) (h : Nat) (bp lp : Bool)
    (w : S → ExportOutcome) (d : R) (l : Int) (ms : S → R → Int → MeshOutcome)
    (mOk eb : Bool) (el : Int) (hnull : bp = false ∨ lp = false) :
    occt_export_step st h bp lp w mOk eb el =
      ⟨0, st, none, none, write_error "invalid output pointers" eb el⟩ ∧
    occt_generate_mesh_obj st h d l bp lp ms mOk eb el =
      ⟨0, st, none, none, write_error "invalid output pointers" eb el⟩ := by
  constructor
  · unfold occt_export_step
    rw [if_pos hnull]
  · unfold occt_generate_mesh_obj
    rw [if_pos hnull]

/-- Witness for C10 at a concrete input with a null out-buffer pointer. -/
theorem null_out_pointers_rejected_witness :
    occt_export_step (S := Nat) ⟨[(1, 7)], 2⟩ 1 false true
        (fun _ => ExportOutcome.bytesRead [65]) true true 64 =
      ⟨0, ⟨[(1, 7)], 2⟩, none, none, some "invalid output pointers"⟩ ∧
    occt_generate_mesh_obj (S := Nat) (R := Int) ⟨[(1, 7)], 2⟩ 1 0 1 false true
        (fun _ _ _ => MeshOutcome.faces []) true true 64 =
      ⟨0, ⟨[(1, 7)], 2⟩, none, none, some "invalid output pointers"⟩ := by
  have hx := null_out_pointers_rejected (S := Nat) (R := Int) ⟨[(1, 7)], 2⟩ 1 false true
    (fun _ => ExportOutcome.bytesRead [65]) 0 1 (fun _ _ _ => MeshOutcome.faces [])
    true true 64 (Or.inl rfl)
  exact ⟨hx.1.trans (by rfl), hx.2.trans (by rfl)⟩

/-- Claim C2 counterexample: with an unknown operation name and unregistered
handles the call does return handle 0, but the diagnostic written is the
handle-not-found text, not the unknown-operation text the claim requires
regardless of handle validity: the handle check precedes the operation-name
check. -/
theorem boolean_unknown_op_cex :
    (occt_boolean (S := Nat) (R := Int) ⟨[], 1⟩ 1 2 (some "bogus") 0
        (fun _ _ _ => KernelOutcome.notDone) (fun _ _ _ => KernelOutcome.notDone)
        (fun _ _ _ => KernelOutcome.notDone) true 64).handle = 0 ∧
    (occt_boolean (S := Nat) (R := Int) ⟨[], 1⟩ 1 2 (some "bogus") 0
        (fun _ _ _ => KernelOutcome.notDone) (fun _ _ _ => KernelOutcome.notDone)
        (fun _ _ _ => KernelOutcome.notDone) true 64).errW =
      some "target or tool handle not found" ∧
    ¬ ((occt_boolean (S := Nat) (R := Int) ⟨[], 1⟩ 1 2 (some "bogus") 0
        (fun _ _ _ => KernelOutcome.notDone) (fun _ _ _ => KernelOutcome.notDone)
        (fun _ _ _ => KernelOutcome.notDone) true 64).errW =
      some "unknown boolean operation") := by
  refine ⟨rfl, rfl, ?_⟩
  intro hc
  have : ("target or tool handle not found" : String) = "unknown boolean operation" := by
    have h2 : (some "target or tool handle not found" : Option String) =
        some "unknown boolean operation" := by
      rw [← hc]
      rfl
    exact Option.some.injEq .. ▸ h2
  exact absurd this (by decide)

/-- Claim C2 (amended): for an operation name outside
union/fuse/cut/common/intersect the call returns handle 0 and leaves the
state unchanged; when both handles are registered the diagnostic is the
unknown-operation text, but when either handle is unregistered the handle
check fires first and the diagnostic is the handle-not-found text. -/
theorem boolean_unknown_op (st : WrapperState S) (a b : Nat) (op : Option String)
    (tol : R) (kf kc km : S → S → R → KernelOutcome S) (eb : Bool) (el : Int)
    (hop : opName op ≠ "union" ∧ opName op ≠ "fuse" ∧ opName op ≠ "cut" ∧
      opName op ≠ "common" ∧ opName op ≠ "intersect") :
    (occt_boolean st a b op tol kf kc km eb el).handle = 0 ∧
    (occt_boolean st a b op tol kf kc km eb el).state = st ∧
    ((∃ ta, regFindIt st.registry a = some ta) →
      (∃ ub, regFindIt st.registry b = some ub) →
      (occt_boolean st a b op tol kf kc km eb el).errW =
        write_error "unknown boolean operation" eb el) ∧
    ((regFindIt st.registry a = none ∨ regFindIt st.registry b = none) →
      (occt_boolean st a b op tol kf kc km eb el).errW =
        write_error "target or tool handle not found" eb el) := by
  obtain ⟨h1, h2, h3, h4, h5⟩ := hop
  have hcond1 : ¬ (opName op = "union" ∨ opName op = "fuse") := by tauto
  have hcond3 : ¬ (opName op = "common" ∨ opName op = "intersect") := by tauto
  rcases hfa : regFindIt st.registry a with _ | ta
  · have heq : occt_boolean st a b op tol kf kc km eb el =
        ⟨0, st, write_error "target or tool handle not found" eb el⟩ := by
      unfold occt_boolean
      simp only [hfa]
    rw [heq]
    refine ⟨rfl, rfl, fun hta _ => ?_, fun _ => rfl⟩
    obtain ⟨ta, hta⟩ := hta
    exact Option.noConfusion hta
  · rcases hfb : regFindIt st.registry b with _ | ub
    · have heq : occt_boolean st a b op tol kf kc km eb el =
          ⟨0, st, write_error "target or tool handle not found" eb el⟩ := by
        unfold occt_boolean
        simp only [hfa, hfb]
      rw [heq]
      refine ⟨rfl, rfl, fun _ hub => ?_, fun _ => rfl⟩
      obtain ⟨ub, hub⟩ := hub
      exact Option.noConfusion hub
    · have heq : occt_boolean st a b op tol kf kc km eb el =
          ⟨0, st, write_error "unknown boolean operation" eb el⟩ := by
        unfold occt_boolean
        simp only [hfa, hfb]
        rw [if_neg hcond1, if_neg h3, if_neg hcond3]
      rw [heq]
      refine ⟨rfl, rfl, fun _ _ => rfl, fun hc => ?_⟩
      rcases hc with hc | hc
      · exact Option.noConfusion hc
      · exact Option.noConfusion hc

/-- Witness for the amended C2: both handles registered, bogus operation
name, diagnostic is the unknown-operation text. -/
theorem boolean_unknown_op_witness :
    (occt_boolean (S := Nat) (R := Int) ⟨[(1, 7), (2, 8)], 3⟩ 1 2 (some "bogus") 0
        (fun _ _ _ => KernelOutcome.notDone) (fun _ _ _ => KernelOutcome.notDone)
        (fun _ _ _ => KernelOutcome.notDone) true 64).handle = 0 ∧
    (occt_boolean (S := Nat) (R := Int) ⟨[(1, 7), (2, 8)], 3⟩ 1 2 (some "bogus") 0
        (fun _ _ _ => KernelOutcome.notDone) (fun _ _ _ => KernelOutcome.notDone)
        (fun _ _ _ => KernelOutcome.notDone) true 64).errW =
      write_error "unknown boolean operation" true 64 := by
  have hx := boolean_unknown_op (S := Nat) (R := Int) ⟨[(1, 7), (2, 8)], 3⟩ 1 2
    (some "bogus") 0 (fun _ _ _ => KernelOutcome.notDone)
    (fun _ _ _ => KernelOutcome.notDone) (fun _ _ _ => KernelOutcome.notDone)
    true 64 (by refine ⟨?_, ?_, ?_, ?_, ?_⟩ <;> decide)
  exact ⟨hx.1, hx.2.2.1 ⟨7, rfl⟩ ⟨8, rfl⟩⟩

/-- Claim C9: for all states, handles, tolerances and kernel oracles,
the operation names union and fuse dispatch to the same kernel computation
and produce identical results, and likewise common and intersect. -/
theorem boolean_alias_dispatch (st : WrapperState S) (a b : Nat) (tol : R)
    (kf kc km : S → S → R → KernelOutcome S) (eb : Bool) (el : Int) :
    occt_boolean st a b (some "union") tol kf kc km eb el =
      occt_boolean st a b (some "fuse") tol kf kc km eb el ∧
    occt_boolean st a b (some "common") tol kf kc km eb el =
      occt_boolean st a b (some "intersect") tol kf kc km eb el := by
  constructor <;>
    · unfold occt_boolean
      rcases regFindIt st.registry a with _ | ta
      · rfl
      rcases regFindIt st.registry b with _ | ub
      · rfl
      simp [opName]

/-- Claim C1 counterexample: for a registered handle whose STEP bytes are
read back successfully but whose result allocation fails, `occt_export_step`
returns 0 (a failure) yet has already written the out-length with the
intended size and set the out-buffer pointer to null, so the out-parameters
are not left untouched on this failing input. -/
theorem export_alloc_failure_touches_out_cex :
    (occt_export_step (S := Nat) ⟨[(1, 7)], 2⟩ 1 true true
        (fun _ => ExportOutcome.bytesRead [65, 66]) false true 64).ret = 0 ∧
    (occt_export_step (S := Nat) ⟨[(1, 7)], 2⟩ 1 true true
        (fun _ => ExportOutcome.bytesRead [65, 66]) false true 64).outLenW = some 2 ∧
    (occt_export_step (S := Nat) ⟨[(1, 7)], 2⟩ 1 true true
        (fun _ => ExportOutcome.bytesRead [65, 66]) false true 64).outBufW = some none :=
  ⟨rfl, rfl, rfl⟩

/-- Claim C1 (amended): whenever a buffer-producing operation fails
(returns 0), no handle is registered and the state is unchanged, no
allocated buffer is ever handed out, and the out-parameters are left
untouched on every failure path except allocation failure, on which the
out-length has already been stored and the out-buffer pointer set to null
by the code preceding the allocation check. -/
theorem buffer_fail_no_alloc (st : WrapperState S) (h : Nat) (bp lp : Bool)
    (w : S → ExportOutcome) (d : R) (l : Int) (ms : S → R → Int → MeshOutcome)
    (mOk eb : Bool) (el : Int) :
    ((occt_export_step st h bp lp w mOk eb el).ret = 0 →
      (occt_export_step st h bp lp w mOk eb el).state = st ∧
      (∀ b2, (occt_export_step st h bp lp w mOk eb el).outBufW ≠ some (some b2)) ∧
      ((occt_export_step st h bp lp w mOk eb el).outLenW = none ∧
          (occt_export_step st h bp lp w mOk eb el).outBufW = none ∨
        mOk = false ∧
          (occt_export_step st h bp lp w mOk eb el).outBufW = some none)) ∧
    ((occt_generate_mesh_obj st h d l bp lp ms mOk eb el).ret = 0 →
      (occt_generate_mesh_obj st h d l bp lp ms mOk eb el).state = st ∧
      (∀ b2,
        (occt_generate_mesh_obj st h d l bp lp ms mOk eb el).outBufW ≠ some (some b2)) ∧
      ((occt_generate_mesh_obj st h d l bp lp ms mOk eb el).outLenW = none ∧
          (occt_generate_mesh_obj st h d l bp lp ms mOk eb el).outBufW = none ∨
        mOk = false ∧
          (occt_generate_mesh_obj st h d l bp lp ms mOk eb el).outBufW = some none)) := by
  constructor
  · by_cases hbp : bp = false ∨ lp = false
    · have heq : occt_export_step st h bp lp w mOk eb el =
          ⟨0, st, none, none, write_error "invalid output pointers" eb el⟩ := by
        unfold occt_export_step
        rw [if_pos hbp]
      rw [heq]
      exact fun _ => ⟨rfl, fun b2 hc => Option.noConfusion hc, Or.inl ⟨rfl, rfl⟩⟩
    · rcases hf : regFindIt st.registry h with _ | shape
      · have heq : occt_export_step st h bp lp w mOk eb el =
            ⟨0, st, none, none, write_error "handle not found" eb el⟩ := by
          unfold occt_export_step
          rw [if_neg hbp]
          simp only [hf]
        rw [heq]
        exact fun _ => ⟨rfl, fun b2 hc => Option.noConfusion hc, Or.inl ⟨rfl, rfl⟩⟩
      · have huntouched : ∀ msg : String,
            occt_export_step st h bp lp w mOk eb el =
              ⟨0, st, none, none, write_error msg eb el⟩ →
            (occt_export_step st h bp lp w mOk eb el).ret = 0 →
              (occt_export_step st h bp lp w mOk eb el).state = st ∧
              (∀ b2,
                (occt_export_step st h bp lp w mOk eb el).outBufW ≠ some (some b2)) ∧
              ((occt_export_step st h bp lp w mOk eb el).outLenW = none ∧
                  (occt_export_step st h bp lp w mOk eb el).outBufW = none ∨
                mOk = false ∧
                  (occt_export_step st h bp lp w mOk eb el).outBufW = some none) := by
          intro msg heq _
          rw [heq]
          exact ⟨rfl, fun b2 hc => Option.noConfusion hc, Or.inl ⟨rfl, rfl⟩⟩
        rcases hw : w shape with _ | _ | _ | _ | content | m2
        · refine huntouched "STEP transfer in writer failed" ?_
          unfold occt_export_step
          rw [if_neg hbp]
          simp only [hf, hw]
        · refine huntouched "STEP write failed" ?_
          unfold occt_export_step
          rw [if_neg hbp]
          simp only [hf, hw]
        · refine huntouched "cannot open tmp step for reading" ?_
          unfold occt_export_step
          rw [if_neg hbp]
          simp only [hf, hw]
        · refine huntouched "failed to read tmp step file" ?_
          unfold occt_export_step
          rw [if_neg hbp]
          simp only [hf, hw]
        · cases mOk with
          | true =>
              have heq : occt_export_step st h bp lp w true eb el =
                  ⟨1, st, some content.length, some (some content), none⟩ := by
                unfold occt_export_step
                rw [if_neg hbp]
                simp only [hf, hw]
                rfl
              rw [heq]
              intro hret
              exact absurd hret (by simp)
          | false =>
              have heq : occt_export_step st h bp lp w false eb el =
                  ⟨0, st, some content.length, some none,
                    write_error "malloc failed" eb el⟩ := by
                unfold occt_export_step
                rw [if_neg hbp]
                simp only [hf, hw]
                rfl
              rw [heq]
              intro _
              refine ⟨rfl, fun b2 hc => ?_, Or.inr ⟨rfl, rfl⟩⟩
              simp at hc
        · refine huntouched ("exception: " ++ m2) ?_
          unfold occt_export_step
          rw [if_neg hbp]
          simp only [hf, hw]
  · by_cases hbp : bp = false ∨ lp = false
    · have heq : occt_generate_mesh_obj st h d l bp lp ms mOk eb el =
          ⟨0, st, none, none, write_error "invalid output pointers" eb el⟩ := by
        unfold occt_generate_mesh_obj
        rw [if_pos hbp]
      rw [heq]
      exact fun _ => ⟨rfl, fun b2 hc => Option.noConfusion hc, Or.inl ⟨rfl, rfl⟩⟩
    · rcases hf : regFindIt st.registry h with _ | shape
      · have heq : occt_generate_mesh_obj st h d l bp lp ms mOk eb el =
            ⟨0, st, none, none, write_error "handle not found" eb el⟩ := by
          unfold occt_generate_mesh_obj
          rw [if_neg hbp]
          simp only [hf]
        rw [heq]
        exact fun _ => ⟨rfl, fun b2 hc => Option.noConfusion hc, Or.inl ⟨rfl, rfl⟩⟩
      · rcases hw : ms shape d l with fs | m2
        · cases mOk with
          | true =>
              have heq : occt_generate_mesh_obj st h d l bp lp ms true eb el =
                  ⟨1, st, some (objText fs).length, some (some (objText fs)), none⟩ := by
                unfold occt_generate_mesh_obj
                rw [if_neg hbp]
                simp only [hf, hw]
                rfl
              rw [heq]
              intro hret
              exact absurd hret (by simp)
          | false =>
              have heq : occt_generate_mesh_obj st h d l bp lp ms false eb el =
                  ⟨0, st, some (objText fs).length, some none,
                    write_error "malloc failed" eb el⟩ := by
                unfold occt_generate_mesh_obj
                rw [if_neg hbp]
                simp only [hf, hw]
                rfl
              rw [heq]
              intro _
              refine ⟨rfl, fun b2 hc => ?_, Or.inr ⟨rfl, rfl⟩⟩
              simp at hc
        · have heq : occt_generate_mesh_obj st h d l bp lp ms mOk eb el =
              ⟨0, st, none, none, write_error ("mesh exception: " ++ m2) eb el⟩ := by
            unfold occt_generate_mesh_obj
            rw [if_neg hbp]
            simp only [hf, hw]
          rw [heq]
          exact fun _ => ⟨rfl, fun b2 hc => Option.noConfusion hc, Or.inl ⟨rfl, rfl⟩⟩

/-- Witness for the amended C1: a concrete failing export (handle not
registered) leaves the state unchanged and the out-parameters untouched. -/
theorem buffer_fail_no_alloc_witness :
    (occt_export_step (S := Nat) ⟨[], 5⟩ 3 true true
        (fun _ => ExportOutcome.transferFail) true true 64).state = ⟨[], 5⟩ ∧
    (occt_export_step (S := Nat) ⟨[], 5⟩ 3 true true
        (fun _ => ExportOutcome.transferFail) true true 64).outLenW = none ∧
    (occt_export_step (S := Nat) ⟨[], 5⟩ 3 true true
        (fun _ => ExportOutcome.transferFail) true true 64).outBufW = none := by
  have hx := (buffer_fail_no_alloc (S := Nat) (R := Int) ⟨[], 5⟩ 3 true true
    (fun _ => ExportOutcome.transferFail) 0 1 (fun _ _ _ => MeshOutcome.faces [])
    true true 64).1 rfl
  rcases hx.2.2 with hc | hc
  · exact ⟨hx.1, hc.1, hc.2⟩
  · exact absurd hc.1 (by decide)

/-- Claim C3: along any sequence of facade calls from a well-formed state
(in particular the initial state: empty registry, counter 1), the handles
returned by successful handle-returning operations are strictly increasing
in issue order: each is strictly greater than every handle issued before
it, so no value is ever reused, even after a release, and all issued
handles are pairwise distinct; moreover every issued handle is at least 1,
so handle 0 is never returned on success. -/
theorem handles_fresh_monotone (st : WrapperState S) (ops : List (TraceOp S R))
    (hwf : WF st) :
    (runTrace st ops).2.Pairwise (· < ·) ∧ ∀ h ∈ (runTrace st ops).2, 1 ≤ h := by
  obtain ⟨_, _, hmem, hpw⟩ := runTrace_spec st ops hwf
  exact ⟨hpw, fun h hc => le_trans hwf.1 (hmem h hc).1⟩

/-- Witness for C3: a concrete trace from the initial state performing a
load, a fillet of the loaded handle, a release of it, and a fillet of the
duplicate. -/
theorem handles_fresh_monotone_witness :
    (runTrace (S := Nat) (R := Int) ⟨[], 1⟩
        [TraceOp.loadOp (some "box.step") (some [1, 2]) (LoadOutcome.stepOk 7) true 64,
         TraceOp.filletOp 2 [] 0 0 true 64,
         TraceOp.releaseOp 2 true 64,
         TraceOp.filletOp 3 [] 0 0 true 64]).2.Pairwise (· < ·) ∧
    ∀ h ∈ (runTrace (S := Nat) (R := Int) ⟨[], 1⟩
        [TraceOp.loadOp (some "box.step") (some [1, 2]) (LoadOutcome.stepOk 7) true 64,
         TraceOp.filletOp 2 [] 0 0 true 64,
         TraceOp.releaseOp 2 true 64,
         TraceOp.filletOp 3 [] 0 0 true 64]).2, 1 ≤ h :=
  handles_fresh_monotone ⟨[], 1⟩
    [TraceOp.loadOp (some "box.step") (some [1, 2]) (LoadOutcome.stepOk 7) true 64,
     TraceOp.filletOp 2 [] 0 0 true 64,
     TraceOp.releaseOp 2 true 64,
     TraceOp.filletOp 3 [] 0 0 true 64] (by decide)

/-- Claim C7: on every successful mesh export, the produced buffer is the
header followed by one line per global vertex and one line per retained
triangle; the global vertex list is the plain concatenation of the
per-face node lists, with no deduplication across faces (shared corners of
adjacent faces occur as independent copies); and every emitted triangle
references its vertices by valid 1-based indices into that vertex list. -/
theorem mesh_export_format (st : WrapperState S) (h : Nat) (d : R) (l : Int)
    (ms : S → R → Int → MeshOutcome) (eb : Bool) (el : Int) (shape : S)
    (fs : List (Option FaceTri))
    (hreg : regFindIt st.registry h = some shape)
    (hms : ms shape d l = MeshOutcome.faces fs) :
    (occt_generate_mesh_obj st h d l true true ms true eb el).ret = 1 ∧
    (occt_generate_mesh_obj st h d l true true ms true eb el).outBufW =
      some (some (objText fs)) ∧
    (occt_generate_mesh_obj st h d l true true ms true eb el).outLenW =
      some (objText fs).length ∧
    (globalMesh fs).1 = ((fs.filterMap id).map FaceTri.nodes).flatten ∧
    objText fs = "# qutlas occt obj\n"
      ++ String.join ((globalMesh fs).1.map vertexLine)
      ++ String.join ((globalMesh fs).2.map faceLine) ∧
    ∀ t ∈ (globalMesh fs).2, idxOk (globalMesh fs).1.length t := by
  have heq : occt_generate_mesh_obj st h d l true true ms true eb el =
      ⟨1, st, some (objText fs).length, some (some (objText fs)), none⟩ := by
    unfold occt_generate_mesh_obj
    rw [if_neg (by simp)]
    simp only [hreg, hms]
    rfl
  rw [heq]
  exact ⟨rfl, rfl, rfl, globalMesh_vertices fs, rfl, globalMesh_idx_ok fs⟩

/-- A three-entry face fixture: two triangulated faces sharing one corner
point (textually identical coordinates), one face without triangulation,
and one out-of-range triangle that the loop filters out. -/
def meshFixture : List (Option FaceTri) :=
  [some ⟨[⟨"0", "0", "0"⟩, ⟨"1", "0", "0"⟩, ⟨"0", "1", "0"⟩], [(1, 2, 3)]⟩,
   none,
   some ⟨[⟨"0", "1", "0"⟩, ⟨"1", "1", "0"⟩], [(1, 2, 1), (5, 1, 2)]⟩]

/-- Witness for C7 on `meshFixture`: the export succeeds, the shared corner
appears twice in the global vertex list (no deduplication), and the
emitted triangles are exactly the in-range ones with 1-based global
indices. -/
theorem mesh_export_format_witness :
    (occt_generate_mesh_obj (S := Nat) (R := Int) ⟨[(1, 7)], 2⟩ 1 0 1 true true
        (fun _ _ _ => MeshOutcome.faces meshFixture) true true 64).ret = 1 ∧
    (occt_generate_mesh_obj (S := Nat) (R := Int) ⟨[(1, 7)], 2⟩ 1 0 1 true true
        (fun _ _ _ => MeshOutcome.faces meshFixture) true true 64).outBufW =
      some (some (objText meshFixture)) ∧
    (globalMesh meshFixture).1 =
      [⟨"0", "0", "0"⟩, ⟨"1", "0", "0"⟩, ⟨"0", "1", "0"⟩,
        ⟨"0", "1", "0"⟩, ⟨"1", "1", "0"⟩] ∧
    (globalMesh meshFixture).2 = [(1, 2, 3), (4, 5, 4)] := by
  have hx := mesh_export_format (S := Nat) (R := Int) ⟨[(1, 7)], 2⟩ 1 0 1
    (fun _ _ _ => MeshOutcome.faces meshFixture) true 64 7 meshFixture rfl rfl
  exact ⟨hx.1, hx.2.1, hx.2.2.2.1.trans (by rfl), by rfl⟩

/-- Packaging of the error-channel contract for a handle-returning operation
whose non-error result components and taken branch do not depend on the
error-buffer arguments: there is one branch diagnostic (`none` on the
success branch), the result is the same for all error-buffer arguments
except for the diagnostic written through `write_error`. -/
theorem handle_op_err_spec (f : Bool → Int → HandleResult S) (hv : Nat)
    (sv : WrapperState S) (msg : Option String)
    (heq : ∀ eb el, f eb el =
      ⟨hv, sv, Option.bind msg (fun m => write_error m eb el)⟩)
    (hok : msg = none → hv ≠ 0) (hfail : msg ≠ none → hv = 0) :
    ∃ dg : Option String, ((f false 0).handle ≠ 0 → dg = none) ∧
      ((f false 0).handle = 0 → dg ≠ none) ∧
      ∀ eb el, f eb el = ⟨(f false 0).handle, (f false 0).state,
        Option.bind dg (fun m => write_error m eb el)⟩ := by
  refine ⟨msg, ?_, ?_, ?_⟩
  · intro hc
    cases msg with
    | none => rfl
    | some m =>
        rw [heq false 0] at hc
        exact absurd (hfail (fun h2 => Option.noConfusion h2)) hc
  · intro hc
    cases msg with
    | some m => exact fun h2 => Option.noConfusion h2
    | none =>
        rw [heq false 0] at hc
        exact absurd hc (hok rfl)
  · intro eb el
    rw [heq eb el, heq false 0]

/-- Packaging of the error-channel contract for an int-returning operation
(`occt_release_handle`), in the same sense as `handle_op_err_spec`. -/
theorem ret_op_err_spec (f : Bool → Int → RetResult S) (rv : Nat)
    (sv : WrapperState S) (msg : Option String)
    (heq : ∀ eb el, f eb el =
      ⟨rv, sv, Option.bind msg (fun m => write_error m eb el)⟩)
    (hok : msg = none → rv ≠ 0) (hfail : msg ≠ none → rv = 0) :
    ∃ dg : Option String, ((f false 0).ret ≠ 0 → dg = none) ∧
      ((f false 0).ret = 0 → dg ≠ none) ∧
      ∀ eb el, f eb el = ⟨(f false 0).ret, (f false 0).state,
        Option.bind dg (fun m => write_error m eb el)⟩ := by
  refine ⟨msg, ?_, ?_, ?_⟩
  · intro hc
    cases msg with
    | none => rfl
    | some m =>
        rw [heq false 0] at hc
        exact absurd (hfail (fun h2 => Option.noConfusion h2)) hc
  · intro hc
    cases msg with
    | some m => exact fun h2 => Option.noConfusion h2
    | none =>
        rw [heq false 0] at hc
        exact absurd hc (hok rfl)
  · intro eb el
    rw [heq eb el, heq false 0]

/-- Packaging of the error-channel contract for a buffer-producing
operation, in the same sense as `handle_op_err_spec`. -/
theorem buf_op_err_spec {B : Type} (f : Bool → Int → BufResult S B) (rv : Nat)
    (sv : WrapperState S) (lv : Option Nat) (bv : Option (Option B))
    (msg : Option String)
    (heq : ∀ eb el, f eb el =
      ⟨rv, sv, lv, bv, Option.bind msg (fun m => write_error m eb el)⟩)
    (hok : msg = none → rv ≠ 0) (hfail : msg ≠ none → rv = 0) :
    ∃ dg : Option String, ((f false 0).ret ≠ 0 → dg = none) ∧
      ((f false 0).ret = 0 → dg ≠ none) ∧
      ∀ eb el, f eb el = ⟨(f false 0).ret, (f false 0).state, (f false 0).outLenW,
        (f false 0).outBufW, Option.bind dg (fun m => write_error m eb el)⟩ := by
  refine ⟨msg, ?_, ?_, ?_⟩
  · intro hc
    cases msg with
    | none => rfl
    | some m =>
        rw [heq false 0] at hc
        exact absurd (hfail (fun h2 => Option.noConfusion h2)) hc
  · intro hc
    cases msg with
    | some m => exact fun h2 => Option.noConfusion h2
    | none =>
        rw [heq false 0] at hc
        exact absurd hc (hok rfl)
  · intro eb el
    rw [heq eb el, heq false 0]

/-- Packaging of the error-channel contract for `occt_get_bounds`, in the
same sense as `handle_op_err_spec`. -/
theorem bounds_op_err_spec (f : Bool → Int → BoundsResult S R) (rv : Nat)
    (sv : WrapperState S) (v1 v2 v3 v4 v5 v6 : Option R) (msg : Option String)
    (heq : ∀ eb el, f eb el =
      ⟨rv, sv, v1, v2, v3, v4, v5, v6, Option.bind msg (fun m => write_error m eb el)⟩)
    (hok : msg = none → rv ≠ 0) (hfail : msg ≠ none → rv = 0) :
    ∃ dg : Option String, ((f false 0).ret ≠ 0 → dg = none) ∧
      ((f false 0).ret = 0 → dg ≠ none) ∧
      ∀ eb el, f eb el = ⟨(f false 0).ret, (f false 0).state, (f false 0).minxW,
        (f false 0).minyW, (f false 0).minzW, (f false 0).maxxW, (f false 0).maxyW,
        (f false 0).maxzW, Option.bind dg (fun m => write_error m eb el)⟩ := by
  refine ⟨msg, ?_, ?_, ?_⟩
  · intro hc
    cases msg with
    | none => rfl
    | some m =>
        rw [heq false 0] at hc
        exact absurd (hfail (fun h2 => Option.noConfusion h2)) hc
  · intro hc
    cases msg with
    | some m => exact fun h2 => Option.noConfusion h2
    | none =>
        rw [heq false 0] at hc
        exact absurd hc (hok rfl)
  · intro eb el
    rw [heq eb el, heq false 0]

/-- Claim C8: the error-channel protocol.  `write_error` writes a
null-terminated diagnostic truncated to the capacity (capacity minus one
characters survive) exactly when the caller passed a non-null buffer of
positive capacity, and writes nothing when the buffer is null or the
capacity is nonpositive.  Moreover every fallible operation determines one
branch diagnostic, `none` exactly on its success branch: the whole result
apart from the error write is independent of the error-buffer arguments
(so declining diagnostics never affects the result), the error buffer is
untouched on success, and on failure the diagnostic reaches the caller
buffer through `write_error`, hence truncated to capacity. -/
theorem error_channel_protocol (st : WrapperState S)
    (fn : Option String) (data : Option (List Nat)) (oc : LoadOutcome S)
    (a b : Nat) (bop : Option String) (tol : R)
    (kf kc km : S → S → R → KernelOutcome S)
    (t : Nat) (edges : List Nat) (radius ftol : R)
    (rh : Nat)
    (xh : Nat) (w : S → ExportOutcome) (xbp xlp xm : Bool)
    (mh : Nat) (md : R) (ml : Int) (ms : S → R → Int → MeshOutcome) (mbp mlp mm : Bool)
    (bh : Nat) (p1 p2 p3 p4 p5 p6 : Bool) (kb : S → BoundsOutcome R)
    (hwf : WF st) :
    (∀ (m : String) (eb : Bool) (el : Int), eb = true → 0 < el →
      write_error m eb el = some (String.mk (m.data.take (el - 1).toNat))) ∧
    (∀ (m : String) (eb : Bool) (el : Int), eb = false ∨ el ≤ 0 →
      write_error m eb el = none) ∧
    (∃ dg : Option String,
      ((occt_load_from_memory st fn data oc false 0).handle ≠ 0 → dg = none) ∧
      ((occt_load_from_memory st fn data oc false 0).handle = 0 → dg ≠ none) ∧
      ∀ eb el, occt_load_from_memory st fn data oc eb el =
        ⟨(occt_load_from_memory st fn data oc false 0).handle,
          (occt_load_from_memory st fn data oc false 0).state,
          Option.bind dg (fun m => write_error m eb el)⟩) ∧
    (∃ dg : Option String,
      ((occt_boolean st a b bop tol kf kc km false 0).handle ≠ 0 → dg = none) ∧
      ((occt_boolean st a b bop tol kf kc km false 0).handle = 0 → dg ≠ none) ∧
      ∀ eb el, occt_boolean st a b bop tol kf kc km eb el =
        ⟨(occt_boolean st a b bop tol kf kc km false 0).handle,
          (occt_boolean st a b bop tol kf kc km false 0).state,
          Option.bind dg (fun m => write_error m eb el)⟩) ∧
    (∃ dg : Option String,
      ((occt_fillet st t edges radius ftol false 0).handle ≠ 0 → dg = none) ∧
      ((occt_fillet st t edges radius ftol false 0).handle = 0 → dg ≠ none) ∧
      ∀ eb el, occt_fillet st t edges radius ftol eb el =
        ⟨(occt_fillet st t edges radius ftol false 0).handle,
          (occt_fillet st t edges radius ftol false 0).state,
          Option.bind dg (fun m => write_error m eb el)⟩) ∧
    (∃ dg : Option String,
      ((occt_release_handle st rh false 0).ret ≠ 0 → dg = none) ∧
      ((occt_release_handle st rh false 0).ret = 0 → dg ≠ none) ∧
      ∀ eb el, occt_release_handle st rh eb el =
        ⟨(occt_release_handle st rh false 0).ret,
          (occt_release_handle st rh false 0).state,
          Option.bind dg (fun m => write_error m eb el)⟩) ∧
    (∃ dg : Option String,
      ((occt_export_step st xh xbp xlp w xm false 0).ret ≠ 0 → dg = none) ∧
      ((occt_export_step st xh xbp xlp w xm false 0).ret = 0 → dg ≠ none) ∧
      ∀ eb el, occt_export_step st xh xbp xlp w xm eb el =
        ⟨(occt_export_step st xh xbp xlp w xm false 0).ret,
          (occt_export_step st xh xbp xlp w xm false 0).state,
          (occt_export_step st xh xbp xlp w xm false 0).outLenW,
          (occt_export_step st xh xbp xlp w xm false 0).outBufW,
          Option.bind dg (fun m => write_error m eb el)⟩) ∧
    (∃ dg : Option String,
      ((occt_generate_mesh_obj st mh md ml mbp mlp ms mm false 0).ret ≠ 0 → dg = none) ∧
      ((occt_generate_mesh_obj st mh md ml mbp mlp ms mm false 0).ret = 0 → dg ≠ none) ∧
      ∀ eb el, occt_generate_mesh_obj st mh md ml mbp mlp ms mm eb el =
        ⟨(occt_generate_mesh_obj st mh md ml mbp mlp ms mm false 0).ret,
          (occt_generate_mesh_obj st mh md ml mbp mlp ms mm false 0).state,
          (occt_generate_mesh_obj st mh md ml mbp mlp ms mm false 0).outLenW,
          (occt_generate_mesh_obj st mh md ml mbp mlp ms mm false 0).outBufW,
          Option.bind dg (fun m => write_error m eb el)⟩) ∧
    (∃ dg : Option String,
      ((occt_get_bounds st bh p1 p2 p3 p4 p5 p6 kb false 0).ret ≠ 0 → dg = none) ∧
      ((occt_get_bounds st bh p1 p2 p3 p4 p5 p6 kb false 0).ret = 0 → dg ≠ none) ∧
      ∀ eb el, occt_get_bounds st bh p1 p2 p3 p4 p5 p6 kb eb el =
        ⟨(occt_get_bounds st bh p1 p2 p3 p4 p5 p6 kb false 0).ret,
          (occt_get_bounds st bh p1 p2 p3 p4 p5 p6 kb false 0).state,
          (occt_get_bounds st bh p1 p2 p3 p4 p5 p6 kb false 0).minxW,
          (occt_get_bounds st bh p1 p2 p3 p4 p5 p6 kb false 0).minyW,
          (occt_get_bounds st bh p1 p2 p3 p4 p5 p6 kb false 0).minzW,
          (occt_get_bounds st bh p1 p2 p3 p4 p5 p6 kb false 0).maxxW,
          (occt_get_bounds st bh p1 p2 p3 p4 p5 p6 kb false 0).maxyW,
          (occt_get_bounds st bh p1 p2 p3 p4 p5 p6 kb false 0).maxzW,
          Option.bind dg (fun m => write_error m eb el)⟩) := by
  refine ⟨?_, ?_, ?_, ?_, ?_, ?_, ?_, ?_, ?_⟩
  · intro m eb el heb hel
    subst heb
    unfold write_error
    rw [if_pos ⟨rfl, hel⟩]
  · intro m eb el hc
    unfold write_error
    rw [if_neg]
    rintro ⟨h1, h2⟩
    rcases hc with hc | hc
    · rw [hc] at h1
      exact Bool.noConfusion h1
    · omega
  · by_cases hd : data = none ∨ data = some []
    · exact handle_op_err_spec (fun eb el => occt_load_from_memory st fn data oc eb el)
        0 st (some "empty input data")
        (fun eb el => by dsimp only; unfold occt_load_from_memory; rw [if_pos hd]; all_goals rfl)
        (fun hc => Option.noConfusion hc) (fun _ => rfl)
    · cases oc with
      | tmpFail =>
          exact handle_op_err_spec (fun eb el => occt_load_from_memory st fn data
              LoadOutcome.tmpFail eb el) 0 ⟨st.registry, st.nextHandle + 1⟩
            (some "failed to create temp file")
            (fun eb el => by dsimp only; unfold occt_load_from_memory; rw [if_neg hd]; all_goals rfl)
            (fun hc => Option.noConfusion hc) (fun _ => rfl)
      | stepTransferFail =>
          exact handle_op_err_spec (fun eb el => occt_load_from_memory st fn data
              LoadOutcome.stepTransferFail eb el) 0 ⟨st.registry, st.nextHandle + 1⟩
            (some "STEP transfer failed")
            (fun eb el => by dsimp only; unfold occt_load_from_memory; rw [if_neg hd]; all_goals rfl)
            (fun hc => Option.noConfusion hc) (fun _ => rfl)
      | stepNullShape =>
          exact handle_op_err_spec (fun eb el => occt_load_from_memory st fn data
              LoadOutcome.stepNullShape eb el) 0 ⟨st.registry, st.nextHandle + 1⟩
            (some "STEP produced empty shape")
            (fun eb el => by dsimp only; unfold occt_load_from_memory; rw [if_neg hd]; all_goals rfl)
            (fun hc => Option.noConfusion hc) (fun _ => rfl)
      | stepOk shape =>
          exact handle_op_err_spec (fun eb el => occt_load_from_memory st fn data
              (LoadOutcome.stepOk shape) eb el) (st.nextHandle + 1)
            ⟨regInsert st.registry (st.nextHandle + 1) shape, st.nextHandle + 2⟩ none
            (fun eb el => by dsimp only; unfold occt_load_from_memory; rw [if_neg hd]; all_goals rfl)
            (fun _ => Nat.succ_ne_zero _) (fun hc => absurd rfl hc)
      | igesTransferFail =>
          exact handle_op_err_spec (fun eb el => occt_load_from_memory st fn data
              LoadOutcome.igesTransferFail eb el) 0 ⟨st.registry, st.nextHandle + 1⟩
            (some "IGES transfer failed")
            (fun eb el => by dsimp only; unfold occt_load_from_memory; rw [if_neg hd]; all_goals rfl)
            (fun hc => Option.noConfusion hc) (fun _ => rfl)
      | igesNullShape =>
          exact handle_op_err_spec (fun eb el => occt_load_from_memory st fn data
              LoadOutcome.igesNullShape eb el) 0 ⟨st.registry, st.nextHandle + 1⟩
            (some "IGES produced empty shape")
            (fun eb el => by dsimp only; unfold occt_load_from_memory; rw [if_neg hd]; all_goals rfl)
            (fun hc => Option.noConfusion hc) (fun _ => rfl)
      | igesOk shape =>
          exact handle_op_err_spec (fun eb el => occt_load_from_memory st fn data
              (LoadOutcome.igesOk shape) eb el) (st.nextHandle + 1)
            ⟨regInsert st.registry (st.nextHandle + 1) shape, st.nextHandle + 2⟩ none
            (fun eb el => by dsimp only; unfold occt_load_from_memory; rw [if_neg hd]; all_goals rfl)
            (fun _ => Nat.succ_ne_zero _) (fun hc => absurd rfl hc)
      | noFormat =>
          exact handle_op_err_spec (fun eb el => occt_load_from_memory st fn data
              LoadOutcome.noFormat eb el) 0 ⟨st.registry, st.nextHandle + 1⟩
            (some "failed to read as STEP or IGES")
            (fun eb el => by dsimp only; unfold occt_load_from_memory; rw [if_neg hd]; all_goals rfl)
            (fun hc => Option.noConfusion hc) (fun _ => rfl)
      | exc m2 =>
          exact handle_op_err_spec (fun eb el => occt_load_from_memory st fn data
              (LoadOutcome.exc m2) eb el) 0 ⟨st.registry, st.nextHandle + 1⟩
            (some ("exception: " ++ m2))
            (fun eb el => by dsimp only; unfold occt_load_from_memory; rw [if_neg hd]; all_goals rfl)
            (fun hc => Option.noConfusion hc) (fun _ => rfl)
      | excUnknown =>
          exact handle_op_err_spec (fun eb el => occt_load_from_memory st fn data
              LoadOutcome.excUnknown eb el) 0 ⟨st.registry, st.nextHandle + 1⟩
            (some "unknown exception during load")
            (fun eb el => by dsimp only; unfold occt_load_from_memory; rw [if_neg hd]; all_goals rfl)
            (fun hc => Option.noConfusion hc) (fun _ => rfl)
  · rcases hfa : regFindIt st.registry a with _ | ta
    · exact handle_op_err_spec (fun eb el => occt_boolean st a b bop tol kf kc km eb el)
        0 st (some "target or tool handle not found")
        (fun eb el => by dsimp only; unfold occt_boolean; simp only [hfa]; all_goals rfl)
        (fun hc => Option.noConfusion hc) (fun _ => rfl)
    rcases hfb : regFindIt st.registry b with _ | ub
    · exact handle_op_err_spec (fun eb el => occt_boolean st a b bop tol kf kc km eb el)
        0 st (some "target or tool handle not found")
        (fun eb el => by dsimp only; unfold occt_boolean; simp only [hfa, hfb]; all_goals rfl)
        (fun hc => Option.noConfusion hc) (fun _ => rfl)
    by_cases h1 : opName bop = "union" ∨ opName bop = "fuse"
    · cases hk : kf ta ub tol with
      | ok result =>
          exact handle_op_err_spec (fun eb el => occt_boolean st a b bop tol kf kc km eb el)
            st.nextHandle
            ⟨regInsert st.registry st.nextHandle result, st.nextHandle + 1⟩ none
            (fun eb el => by
              dsimp only
              unfold occt_boolean
              simp only [hfa, hfb]
              rw [if_pos h1, hk]
              all_goals rfl)
            (fun _ => Nat.one_le_iff_ne_zero.mp hwf.1) (fun hc => absurd rfl hc)
      | notDone =>
          exact handle_op_err_spec (fun eb el => occt_boolean st a b bop tol kf kc km eb el)
            0 st (some "fuse failed")
            (fun eb el => by
              dsimp only
              unfold occt_boolean
              simp only [hfa, hfb]
              rw [if_pos h1, hk]
              all_goals rfl)
            (fun hc => Option.noConfusion hc) (fun _ => rfl)
      | exc m2 =>
          exact handle_op_err_spec (fun eb el => occt_boolean st a b bop tol kf kc km eb el)
            0 st (some ("boolean exception: " ++ m2))
            (fun eb el => by
              dsimp only
              unfold occt_boolean
              simp only [hfa, hfb]
              rw [if_pos h1, hk]
              all_goals rfl)
            (fun hc => Option.noConfusion hc) (fun _ => rfl)
    by_cases h2 : opName bop = "cut"
    · cases hk : kc ta ub tol with
      | ok result =>
          exact handle_op_err_spec (fun eb el => occt_boolean st a b bop tol kf kc km eb el)
            st.nextHandle
            ⟨regInsert st.registry st.nextHandle result, st.nextHandle + 1⟩ none
            (fun eb el => by
              dsimp only
              unfold occt_boolean
              simp only [hfa, hfb]
              rw [if_neg h1, if_pos h2, hk]
              all_goals rfl)
            (fun _ => Nat.one_le_iff_ne_zero.mp hwf.1) (fun hc => absurd rfl hc)
      | notDone =>
          exact handle_op_err_spec (fun eb el => occt_boolean st a b bop tol kf kc km eb el)
            0 st (some "cut failed")
            (fun eb el => by
              dsimp only
              unfold occt_boolean
              simp only [hfa, hfb]
              rw [if_neg h1, if_pos h2, hk]
              all_goals rfl)
            (fun hc => Option.noConfusion hc) (fun _ => rfl)
      | exc m2 =>
          exact handle_op_err_spec (fun eb el => occt_boolean st a b bop tol kf kc km eb el)
            0 st (some ("boolean exception: " ++ m2))
            (fun eb el => by
              dsimp only
              unfold occt_boolean
              simp only [hfa, hfb]
              rw [if_neg h1, if_pos h2, hk]
              all_goals rfl)
            (fun hc => Option.noConfusion hc) (fun _ => rfl)
    by_cases h3 : opName bop = "common" ∨ opName bop = "intersect"
    · cases hk : km ta ub tol with
      | ok result =>
          exact handle_op_err_spec (fun eb el => occt_boolean st a b bop tol kf kc km eb el)
            st.nextHandle
            ⟨regInsert st.registry st.nextHandle result, st.nextHandle + 1⟩ none
            (fun eb el => by
              dsimp only
              unfold occt_boolean
              simp only [hfa, hfb]
              rw [if_neg h1, if_neg h2, if_pos h3, hk]
              all_goals rfl)
            (fun _ => Nat.one_le_iff_ne_zero.mp hwf.1) (fun hc => absurd rfl hc)
      | notDone =>
          exact handle_op_err_spec (fun eb el => occt_boolean st a b bop tol kf kc km eb el)
            0 st (some "common failed")
            (fun eb el => by
              dsimp only
              unfold occt_boolean
              simp only [hfa, hfb]
              rw [if_neg h1, if_neg h2, if_pos h3, hk]
              all_goals rfl)
            (fun hc => Option.noConfusion hc) (fun _ => rfl)
      | exc m2 =>
          exact handle_op_err_spec (fun eb el => occt_boolean st a b bop tol kf kc km eb el)
            0 st (some ("boolean exception: " ++ m2))
            (fun eb el => by
              dsimp only
              unfold occt_boolean
              simp only [hfa, hfb]
              rw [if_neg h1, if_neg h2, if_pos h3, hk]
              all_goals rfl)
            (fun hc => Option.noConfusion hc) (fun _ => rfl)
    · exact handle_op_err_spec (fun eb el => occt_boolean st a b bop tol kf kc km eb el)
        0 st (some "unknown boolean operation")
        (fun eb el => by
          dsimp only
          unfold occt_boolean
          simp only [hfa, hfb]
          rw [if_neg h1, if_neg h2, if_neg h3]
          all_goals rfl)
        (fun hc => Option.noConfusion hc) (fun _ => rfl)
  · rcases hft : regFindIt st.registry t with _ | shp
    · exact handle_op_err_spec (fun eb el => occt_fillet st t edges radius ftol eb el)
        0 st (some "target handle not found")
        (fun eb el => by dsimp only; unfold occt_fillet; simp only [hft]; all_goals rfl)
        (fun hc => Option.noConfusion hc) (fun _ => rfl)
    · exact handle_op_err_spec (fun eb el => occt_fillet st t edges radius ftol eb el)
        st.nextHandle ⟨regInsert st.registry st.nextHandle shp, st.nextHandle + 1⟩ none
        (fun eb el => by dsimp only; unfold occt_fillet; simp only [hft]; all_goals rfl)
        (fun _ => Nat.one_le_iff_ne_zero.mp hwf.1) (fun hc => absurd rfl hc)
  · rcases hfr : regFindIt st.registry rh with _ | shp
    · exact ret_op_err_spec (fun eb el => occt_release_handle st rh eb el)
        0 st (some "handle not found")
        (fun eb el => by dsimp only; unfold occt_release_handle; simp only [hfr]; all_goals rfl)
        (fun hc => Option.noConfusion hc) (fun _ => rfl)
    · exact ret_op_err_spec (fun eb el => occt_release_handle st rh eb el)
        1 ⟨regErase st.registry rh, st.nextHandle⟩ none
        (fun eb el => by dsimp only; unfold occt_release_handle; simp only [hfr]; all_goals rfl)
        (fun _ => Nat.one_ne_zero) (fun hc => absurd rfl hc)
  · by_cases hbp : xbp = false ∨ xlp = false
    · exact buf_op_err_spec (fun eb el => occt_export_step st xh xbp xlp w xm eb el)
        0 st none none (some "invalid output pointers")
        (fun eb el => by dsimp only; unfold occt_export_step; rw [if_pos hbp]; all_goals rfl)
        (fun hc => Option.noConfusion hc) (fun _ => rfl)
    rcases hf : regFindIt st.registry xh with _ | shape
    · exact buf_op_err_spec (fun eb el => occt_export_step st xh xbp xlp w xm eb el)
        0 st none none (some "handle not found")
        (fun eb el => by
          dsimp only
          unfold occt_export_step
          rw [if_neg hbp]
          simp only [hf]
          all_goals rfl)
        (fun hc => Option.noConfusion hc) (fun _ => rfl)
    rcases hw : w shape with _ | _ | _ | _ | content | m2
    · exact buf_op_err_spec (fun eb el => occt_export_step st xh xbp xlp w xm eb el)
        0 st none none (some "STEP transfer in writer failed")
        (fun eb el => by
          dsimp only
          unfold occt_export_step
          rw [if_neg hbp]
          simp only [hf, hw]
          all_goals rfl)
        (fun hc => Option.noConfusion hc) (fun _ => rfl)
    · exact buf_op_err_spec (fun eb el => occt_export_step st xh xbp xlp w xm eb el)
        0 st none none (some "STEP write failed")
        (fun eb el => by
          dsimp only
          unfold occt_export_step
          rw [if_neg hbp]
          simp only [hf, hw]
          all_goals rfl)
        (fun hc => Option.noConfusion hc) (fun _ => rfl)
    · exact buf_op_err_spec (fun eb el => occt_export_step st xh xbp xlp w xm eb el)
        0 st none none (some "cannot open tmp step for reading")
        (fun eb el => by
          dsimp only
          unfold occt_export_step
          rw [if_neg hbp]
          simp only [hf, hw]
          all_goals rfl)
        (fun hc => Option.noConfusion hc) (fun _ => rfl)
    · exact buf_op_err_spec (fun eb el => occt_export_step st xh xbp xlp w xm eb el)
        0 st none none (some "failed to read tmp step file")
        (fun eb el => by
          dsimp only
          unfold occt_export_step
          rw [if_neg hbp]
          simp only [hf, hw]
          all_goals rfl)
        (fun hc => Option.noConfusion hc) (fun _ => rfl)
    · cases xm with
      | true =>
          exact buf_op_err_spec (fun eb el => occt_export_step st xh xbp xlp w true eb el)
            1 st (some content.length) (some (some content)) none
            (fun eb el => by
              dsimp only
              unfold occt_export_step
              rw [if_neg hbp]
              simp only [hf, hw]
              all_goals rfl)
            (fun _ => Nat.one_ne_zero) (fun hc => absurd rfl hc)
      | false =>
          exact buf_op_err_spec (fun eb el => occt_export_step st xh xbp xlp w false eb el)
            0 st (some content.length) (some none) (some "malloc failed")
            (fun eb el => by
              dsimp only
              unfold occt_export_step
              rw [if_neg hbp]
              simp only [hf, hw]
              all_goals rfl)
            (fun hc => Option.noConfusion hc) (fun _ => rfl)
    · exact buf_op_err_spec (fun eb el => occt_export_step st xh xbp xlp w xm eb el)
        0 st none none (some ("exception: " ++ m2))
        (fun eb el => by
          dsimp only
          unfold occt_export_step
          rw [if_neg hbp]
          simp only [hf, hw]
          all_goals rfl)
        (fun hc => Option.noConfusion hc) (fun _ => rfl)
  · by_cases hbp : mbp = false ∨ mlp = false
    · exact buf_op_err_spec (fun eb el => occt_generate_mesh_obj st mh md ml mbp mlp ms mm eb el)
        0 st none none (some "invalid output pointers")
        (fun eb el => by dsimp only; unfold occt_generate_mesh_obj; rw [if_pos hbp]; all_goals rfl)
        (fun hc => Option.noConfusion hc) (fun _ => rfl)
    rcases hf : regFindIt st.registry mh with _ | shape
    · exact buf_op_err_spec (fun eb el => occt_generate_mesh_obj st mh md ml mbp mlp ms mm eb el)
        0 st none none (some "handle not found")
        (fun eb el => by
          dsimp only
          unfold occt_generate_mesh_obj
          rw [if_neg hbp]
          simp only [hf]
          all_goals rfl)
        (fun hc => Option.noConfusion hc) (fun _ => rfl)
    rcases hw : ms shape md ml with fs | m2
    · cases mm with
      | true =>
          exact buf_op_err_spec
            (fun eb el => occt_generate_mesh_obj st mh md ml mbp mlp ms true eb el)
            1 st (some (objText fs).length) (some (some (objText fs))) none
            (fun eb el => by
              dsimp only
              unfold occt_generate_mesh_obj
              rw [if_neg hbp]
              simp only [hf, hw]
              all_goals rfl)
            (fun _ => Nat.one_ne_zero) (fun hc => absurd rfl hc)
      | false =>
          exact buf_op_err_spec
            (fun eb el => occt_generate_mesh_obj st mh md ml mbp mlp ms false eb el)
            0 st (some (objText fs).length) (some none) (some "malloc failed")
            (fun eb el => by
              dsimp only
              unfold occt_generate_mesh_obj
              rw [if_neg hbp]
              simp only [hf, hw]
              all_goals rfl)
            (fun hc => Option.noConfusion hc) (fun _ => rfl)
    · exact buf_op_err_spec (fun eb el => occt_generate_mesh_obj st mh md ml mbp mlp ms mm eb el)
        0 st none none (some ("mesh exception: " ++ m2))
        (fun eb el => by
          dsimp only
          unfold occt_generate_mesh_obj
          rw [if_neg hbp]
          simp only [hf, hw]
          all_goals rfl)
        (fun hc => Option.noConfusion hc) (fun _ => rfl)
  · rcases hf : regFindIt st.registry bh with _ | shape
    · exact bounds_op_err_spec (fun eb el => occt_get_bounds st bh p1 p2 p3 p4 p5 p6 kb eb el)
        0 st none none none none none none (some "handle not found")
        (fun eb el => by dsimp only; unfold occt_get_bounds; simp only [hf]; all_goals rfl)
        (fun hc => Option.noConfusion hc) (fun _ => rfl)
    rcases hk : kb shape with ⟨v1, v2, v3, v4, v5, v6⟩ | m2
    · exact bounds_op_err_spec (fun eb el => occt_get_bounds st bh p1 p2 p3 p4 p5 p6 kb eb el)
        1 st (if p1 then some v1 else none) (if p2 then some v2 else none)
        (if p3 then some v3 else none) (if p4 then some v4 else none)
        (if p5 then some v5 else none) (if p6 then some v6 else none) none
        (fun eb el => by dsimp only; unfold occt_get_bounds; simp only [hf, hk]; all_goals rfl)
        (fun _ => Nat.one_ne_zero) (fun hc => absurd rfl hc)
    · exact bounds_op_err_spec (fun eb el => occt_get_bounds st bh p1 p2 p3 p4 p5 p6 kb eb el)
        0 st none none none none none none (some ("bounds exception: " ++ m2))
        (fun eb el => by dsimp only; unfold occt_get_bounds; simp only [hf, hk]; all_goals rfl)
        (fun hc => Option.noConfusion hc) (fun _ => rfl)

/-- Witness for C8: concrete truncation (capacity 4 keeps three characters
plus the terminator), a declined null buffer, and a declined zero capacity. -/
theorem error_channel_protocol_witness :
    write_error "unknown boolean operation" true 4 = some "unk" ∧
    write_error "unknown boolean operation" false 64 = none ∧
    write_error "unknown boolean operation" true 0 = none := by
  have hx := error_channel_protocol (S := Nat) (R := Int) ⟨[], 1⟩ none none
    LoadOutcome.noFormat 0 0 none 0 (fun _ _ _ => KernelOutcome.notDone)
    (fun _ _ _ => KernelOutcome.notDone) (fun _ _ _ => KernelOutcome.notDone)
    0 [] 0 0 0 0 (fun _ => ExportOutcome.transferFail) true true true
    0 0 0 (fun _ _ _ => MeshOutcome.faces []) true true true
    0 true true true true true true (fun _ => BoundsOutcome.exc "x") (by decide)
  refine ⟨?_, ?_, ?_⟩
  · exact (hx.1 "unknown boolean operation" true 4 rfl (by decide)).trans (by rfl)
  · exact hx.2.1 "unknown boolean operation" false 64 (Or.inl rfl)
  · exact hx.2.1 "unknown boolean operation" true 0 (Or.inr (by decide))

end Claims
